import Mathlib

/-!
Verification of the Zoom→GoHighLevel integration (`GHL` repository).

The development shallowly embeds the identity-resolution / deduplication core
of the repository:

* `src/src/apis/ghl_api.py`       — the CRM (GoHighLevel) client: contact
  activity predicate, search cascade, create/update.
* `src/src/core/webhook_handler.py` — the bot: contact resolution,
  event/note dedup sets, signature verification, meeting-event pipeline.
* `src/src/main.py`               — the webhook route.

Python strings are modelled as Lean `String` (with helpers mirroring Python's
`str` methods over `String.data`); dicts with a known key set become
structures, where an absent key is modelled as the empty string (so Python's
`d.get(k, default)` becomes `if field == "" then default else field`).
Python `set` objects, observed only through `in` / `add` / `len` / `clear`,
are modelled as duplicate-free `List String`.  Outbound HTTP to the CRM is
modelled by an explicit environment (`Env`): contact storage, a fresh-id
counter, the current Unix time, whether the CRM note endpoint succeeds, and a
trace of issued API calls.  Process-salted values (`hash(str(...))` in
Python) are inputs carried on the event structures.

Cryptography (`hmac`/`hashlib` in the source) is implemented for real:
SHA-256, HMAC-SHA256, MD5 and base64 over byte lists (`List Nat`, each < 256),
with UTF-8 encoding of strings.
-/

namespace ZoomGHL

/-! ## Python string helpers -/

/-- Python `str.lower()` (ASCII contents in this code base). -/
def pyLower (s : String) : String := ⟨s.data.map Char.toLower⟩

/-- Python `str.strip()`: drop whitespace from both ends. -/
def pyStrip (s : String) : String :=
  ⟨((s.data.dropWhile Char.isWhitespace).reverse.dropWhile Char.isWhitespace).reverse⟩

/-- Python `s.replace(c, '')` for each character in `bad` (deletion). -/
def removeChars (s : String) (bad : List Char) : String :=
  ⟨s.data.filter (fun c => !(bad.contains c))⟩

/-- Python `s.replace(a, b)` for single characters. -/
def replaceChar (s : String) (a b : Char) : String :=
  ⟨s.data.map (fun c => if c == a then b else c)⟩

/-- Python `str.isdigit()` (ASCII digits; the phone strings here are ASCII). -/
def pyIsDigit (s : String) : Bool := !s.data.isEmpty && s.data.all Char.isDigit

/-- Auxiliary walk for `pyTitle`: uppercase an alphabetic character that
follows a non-alphabetic one, lowercase the rest, as Python `str.title()`. -/
def pyTitleGo : List Char → Bool → List Char
  | [], _ => []
  | c :: cs, prevAlpha =>
    (if c.isAlpha then (if prevAlpha then c.toLower else c.toUpper) else c)
      :: pyTitleGo cs c.isAlpha

/-- Python `str.title()`. -/
def pyTitle (s : String) : String := ⟨pyTitleGo s.data false⟩

/-- Substring test on character lists: Python's `needle in hay`. -/
def strInfix (n : List Char) : List Char → Bool
  | [] => n.isPrefixOf []
  | c :: t => n.isPrefixOf (c :: t) || strInfix n t

/-- Python `needle in hay` on strings. -/
def substr (needle hay : String) : Bool := strInfix needle.data hay.data

/-- Strip `'+'`, `'-'` and `' '` from a phone string:
`phone.replace('+','').replace('-','').replace(' ','')`. -/
def cleanPhone (s : String) : String := removeChars s ['+', '-', ' ']

/-! ## Bytes and UTF-8 -/

/-- UTF-8 encoding of one character (standard 1–4 byte forms). -/
def utf8Char (c : Char) : List Nat :=
  let n := c.toNat
  if n < 128 then [n]
  else if n < 2048 then [192 + n / 64, 128 + n % 64]
  else if n < 65536 then [224 + n / 4096, 128 + n / 64 % 64, 128 + n % 64]
  else [240 + n / 262144, 128 + n / 4096 % 64, 128 + n / 64 % 64, 128 + n % 64]

/-- Python `s.encode('utf-8')` as a byte list. -/
def utf8Encode (s : String) : List Nat := s.data.flatMap utf8Char

/-! ## SHA-256 -/

/-- 32-bit modular addition. -/
def add32 (x y : Nat) : Nat := (x + y) % 4294967296

/-- 32-bit right rotation. -/
def rotr32 (n x : Nat) : Nat := ((x >>> n) ||| (x <<< (32 - n))) % 4294967296

/-- 32-bit left rotation. -/
def rotl32 (n x : Nat) : Nat := ((x <<< n) ||| (x >>> (32 - n))) % 4294967296

/-- Hash state of eight 32-bit words. -/
structure S8 where
  a : Nat
  b : Nat
  c : Nat
  d : Nat
  e : Nat
  f : Nat
  g : Nat
  h : Nat

/-- SHA-256 round constants (fractional parts of cube roots of primes). -/
def sha256K : List Nat :=
  [1116352408, 1899447441, 3049323471, 3921009573, 961987163,
   1508970993, 2453635748, 2870763221, 3624381080, 310598401,
   607225278, 1426881987, 1925078388, 2162078206, 2614888103,
   3248222580, 3835390401, 4022224774, 264347078, 604807628,
   770255983, 1249150122, 1555081692, 1996064986, 2554220882,
   2821834349, 2952996808, 3210313671, 3336571891, 3584528711,
   113926993, 338241895, 666307205, 773529912, 1294757372,
   1396182291, 1695183700, 1986661051, 2177026350, 2456956037,
   2730485921, 2820302411, 3259730800, 3345764771, 3516065817,
   3600352804, 4094571909, 275423344, 430227734, 506948616,
   659060556, 883997877, 958139571, 1322822218, 1537002063,
   1747873779, 1955562222, 2024104815, 2227730452, 2361852424,
   2428436474, 2756734187, 3204031479, 3329325298]

/-- SHA-256 initial state. -/
def sha256H0 : S8 :=
  { a := 1779033703, b := 3144134277, c := 1013904242, d := 2773480762,
    e := 1359893119, f := 2600822924, g := 528734635, h := 1541459225 }

/-- Big-endian bytes → 32-bit words (groups of four). -/
def toWordsBE : List Nat → List Nat
  | b0 :: b1 :: b2 :: b3 :: rest =>
      (b0 * 16777216 + b1 * 65536 + b2 * 256 + b3) :: toWordsBE rest
  | _ => []

/-- Extend the 16-word message schedule by `n` further words. -/
def extendW (w : List Nat) : Nat → List Nat
  | 0 => w
  | n + 1 =>
    let i := w.length
    let w15 := w.getD (i - 15) 0
    let w2 := w.getD (i - 2) 0
    let w16 := w.getD (i - 16) 0
    let w7 := w.getD (i - 7) 0
    let s0 := (rotr32 7 w15) ^^^ (rotr32 18 w15) ^^^ (w15 >>> 3)
    let s1 := (rotr32 17 w2) ^^^ (rotr32 19 w2) ^^^ (w2 >>> 10)
    extendW (w ++ [add32 (add32 w16 s0) (add32 w7 s1)]) n

/-- One SHA-256 round, consuming a `(K, W)` pair. -/
def sha256Round (st : S8) (kw : Nat × Nat) : S8 :=
  let s1 := (rotr32 6 st.e) ^^^ (rotr32 11 st.e) ^^^ (rotr32 25 st.e)
  let ch := (st.e &&& st.f) ^^^ ((st.e ^^^ 4294967295) &&& st.g)
  let t1 := add32 (add32 (add32 st.h s1) (add32 ch kw.1)) kw.2
  let s0 := (rotr32 2 st.a) ^^^ (rotr32 13 st.a) ^^^ (rotr32 22 st.a)
  let mj := (st.a &&& st.b) ^^^ (st.a &&& st.c) ^^^ (st.b &&& st.c)
  let t2 := add32 s0 mj
  { a := add32 t1 t2, b := st.a, c := st.b, d := st.c,
    e := add32 st.d t1, f := st.e, g := st.f, h := st.g }

/-- Compress one 64-byte block into the running state. -/
def sha256Compress (H : S8) (block : List Nat) : S8 :=
  let w := extendW (toWordsBE block) 48
  let st := (sha256K.zip w).foldl sha256Round H
  { a := add32 H.a st.a, b := add32 H.b st.b, c := add32 H.c st.c,
    d := add32 H.d st.d, e := add32 H.e st.e, f := add32 H.f st.f,
    g := add32 H.g st.g, h := add32 H.h st.h }

/-- Fold `n` 64-byte blocks of `data` into the state. -/
def sha256Blocks : S8 → List Nat → Nat → S8
  | H, _, 0 => H
  | H, data, n + 1 => sha256Blocks (sha256Compress H (data.take 64)) (data.drop 64) n

/-- SHA-256 padding: `0x80`, zeros, 64-bit big-endian bit length. -/
def sha256Pad (msg : List Nat) : List Nat :=
  let len := msg.length
  let bitLen := 8 * len
  let k := (119 - len % 64) % 64
  msg ++ [128] ++ List.replicate k 0 ++
    [bitLen / 72057594037927936 % 256, bitLen / 281474976710656 % 256,
     bitLen / 1099511627776 % 256, bitLen / 4294967296 % 256,
     bitLen / 16777216 % 256, bitLen / 65536 % 256,
     bitLen / 256 % 256, bitLen % 256]

/-- One 32-bit word as four big-endian bytes. -/
def w32bytes (x : Nat) : List Nat :=
  [x / 16777216 % 256, x / 65536 % 256, x / 256 % 256, x % 256]

/-- Serialize the final state to the 32-byte digest. -/
def sha256Out (s : S8) : List Nat :=
  w32bytes s.a ++ w32bytes s.b ++ w32bytes s.c ++ w32bytes s.d ++
  w32bytes s.e ++ w32bytes s.f ++ w32bytes s.g ++ w32bytes s.h

/-- SHA-256 of a byte string. -/
def sha256Bytes (msg : List Nat) : List Nat :=
  let p := sha256Pad msg
  sha256Out (sha256Blocks sha256H0 p (p.length / 64))

/-- HMAC-SHA256 (`hmac.new(key, msg, hashlib.sha256)`), 64-byte block size. -/
def hmacSha256 (key msg : List Nat) : List Nat :=
  let k0 := if key.length > 64 then sha256Bytes key else key
  let kp := k0 ++ List.replicate (64 - k0.length) 0
  let ikey := kp.map (fun b => b ^^^ 54)
  let okey := kp.map (fun b => b ^^^ 92)
  sha256Bytes (okey ++ sha256Bytes (ikey ++ msg))

/-! ## Hex encoding -/

/-- One lowercase hex digit. -/
def hexDigit : Nat → Char
  | 0 => '0' | 1 => '1' | 2 => '2' | 3 => '3' | 4 => '4' | 5 => '5'
  | 6 => '6' | 7 => '7' | 8 => '8' | 9 => '9' | 10 => 'a' | 11 => 'b'
  | 12 => 'c' | 13 => 'd' | 14 => 'e' | 15 => 'f' | _ => '0'

/-- Lowercase hex of a byte list (`.hexdigest()`). -/
def hexChars : List Nat → List Char
  | [] => []
  | b :: rest => hexDigit (b / 16) :: hexDigit (b % 16) :: hexChars rest

/-- `hmac.new(token.encode(), payload.encode(), hashlib.sha256).hexdigest()`. -/
def hmacSha256Hex (token payload : String) : String :=
  ⟨hexChars (hmacSha256 (utf8Encode token) (utf8Encode payload))⟩

/-! ## MD5 (used by `generate_note_id`) -/

/-- Hash state of four 32-bit words. -/
structure S4 where
  a : Nat
  b : Nat
  c : Nat
  d : Nat

/-- MD5 sine-derived constants (RFC 1321 table `T`). -/
def md5T : List Nat :=
  [3614090360, 3905402710, 606105819, 3250441966, 4118548399,
   1200080426, 2821735955, 4249261313, 1770035416, 2336552879,
   4294925233, 2304563134, 1804603682, 4254626195, 2792965006,
   1236535329, 4129170786, 3225465664, 643717713, 3921069994,
   3593408605, 38016083, 3634488961, 3889429448, 568446438,
   3275163606, 4107603335, 1163531501, 2850285829, 4243563512,
   1735328473, 2368359562, 4294588738, 2272392833, 1839030562,
   4259657740, 2763975236, 1272893353, 4139469664, 3200236656,
   681279174, 3936430074, 3572445317, 76029189, 3654602809,
   3873151461, 530742520, 3299628645, 4096336452, 1126891415,
   2878612391, 4237533241, 1700485571, 2399980690, 4293915773,
   2240044497, 1873313359, 4264355552, 2734768916, 1309151649,
   4149444226, 3174756917, 718787259, 3951481745]

/-- MD5 per-round left-rotation amounts. -/
def md5S : List Nat :=
  [7, 12, 17, 22, 7, 12, 17, 22, 7, 12, 17, 22, 7, 12, 17, 22,
   5, 9, 14, 20, 5, 9, 14, 20, 5, 9, 14, 20, 5, 9, 14, 20,
   4, 11, 16, 23, 4, 11, 16, 23, 4, 11, 16, 23, 4, 11, 16, 23,
   6, 10, 15, 21, 6, 10, 15, 21, 6, 10, 15, 21, 6, 10, 15, 21]

/-- Little-endian bytes → 32-bit words. -/
def toWordsLE : List Nat → List Nat
  | b0 :: b1 :: b2 :: b3 :: rest =>
      (b0 + b1 * 256 + b2 * 65536 + b3 * 16777216) :: toWordsLE rest
  | _ => []

/-- One MD5 step at round index `i` over message words `M`. -/
def md5Step (M : List Nat) (s : S4) (i : Nat) : S4 :=
  let fg : Nat × Nat :=
    if i < 16 then ((s.b &&& s.c) ||| ((s.b ^^^ 4294967295) &&& s.d), i)
    else if i < 32 then ((s.d &&& s.b) ||| ((s.d ^^^ 4294967295) &&& s.c), (5 * i + 1) % 16)
    else if i < 48 then (s.b ^^^ s.c ^^^ s.d, (3 * i + 5) % 16)
    else (s.c ^^^ (s.b ||| (s.d ^^^ 4294967295)), (7 * i) % 16)
  let tmp := add32 (add32 s.a fg.1) (add32 (md5T.getD i 0) (M.getD fg.2 0))
  { a := s.d, d := s.c, c := s.b, b := add32 s.b (rotl32 (md5S.getD i 0) tmp) }

/-- Compress one 64-byte block into the MD5 state. -/
def md5Compress (H : S4) (block : List Nat) : S4 :=
  let M := toWordsLE block
  let st := (List.range 64).foldl (md5Step M) H
  { a := add32 H.a st.a, b := add32 H.b st.b, c := add32 H.c st.c, d := add32 H.d st.d }

/-- Fold `n` 64-byte blocks of `data` into the MD5 state. -/
def md5Blocks : S4 → List Nat → Nat → S4
  | H, _, 0 => H
  | H, data, n + 1 => md5Blocks (md5Compress H (data.take 64)) (data.drop 64) n

/-- MD5 padding: `0x80`, zeros, 64-bit little-endian bit length. -/
def md5Pad (msg : List Nat) : List Nat :=
  let len := msg.length
  let bitLen := 8 * len
  let k := (119 - len % 64) % 64
  msg ++ [128] ++ List.replicate k 0 ++
    [bitLen % 256, bitLen / 256 % 256, bitLen / 65536 % 256, bitLen / 16777216 % 256,
     bitLen / 4294967296 % 256, bitLen / 1099511627776 % 256,
     bitLen / 281474976710656 % 256, bitLen / 72057594037927936 % 256]

/-- One 32-bit word as four little-endian bytes. -/
def w32bytesLE (x : Nat) : List Nat :=
  [x % 256, x / 256 % 256, x / 65536 % 256, x / 16777216 % 256]

/-- MD5 of a byte string. -/
def md5Bytes (msg : List Nat) : List Nat :=
  let p := md5Pad msg
  let s := md5Blocks { a := 1732584193, b := 4023233417, c := 2562383102, d := 271733878 }
             p (p.length / 64)
  w32bytesLE s.a ++ w32bytesLE s.b ++ w32bytesLE s.c ++ w32bytesLE s.d

/-- `hashlib.md5(s.encode()).hexdigest()`. -/
def md5Hex (s : String) : String := ⟨hexChars (md5Bytes (utf8Encode s))⟩

/-! ## Base64 (URL-validation handshake response) -/

/-- The base64 alphabet. -/
def b64Alphabet : List Char :=
  "ABCDEFGHIJKLMNOPQRSTUVWXYZabcdefghijklmnopqrstuvwxyz0123456789+/".data

/-- One base64 output character. -/
def b64Char (n : Nat) : Char := b64Alphabet.getD n 'A'

/-- Standard base64 of a byte list, with `=` padding. -/
def base64Chars : List Nat → List Char
  | [] => []
  | [b1] => [b64Char (b1 / 4), b64Char (b1 % 4 * 16), '=', '=']
  | [b1, b2] => [b64Char (b1 / 4), b64Char (b1 % 4 * 16 + b2 / 16), b64Char (b2 % 16 * 4), '=']
  | b1 :: b2 :: b3 :: rest =>
      b64Char (b1 / 4) :: b64Char (b1 % 4 * 16 + b2 / 16) ::
      b64Char (b2 % 16 * 4 + b3 / 64) :: b64Char (b3 % 64) :: base64Chars rest

/-- `base64.b64encode(hmac.new(secret, token, sha256).digest()).decode()`. -/
def b64HmacSha256 (secret token : String) : String :=
  ⟨base64Chars (hmacSha256 (utf8Encode secret) (utf8Encode token))⟩

/-! ## Data model

A CRM contact as the GHL API returns it.  An absent `deletedAt`/`archivedAt`
key (Python `None`) is modelled as the empty string, which has the same
truthiness in every check the source performs. -/

structure Contact where
  id : String
  firstName : String := ""
  lastName : String := ""
  email : String := ""
  phone : String := ""
  status : String := ""
  deletedAt : String := ""
  archivedAt : String := ""
  dnd : Bool := false
deriving DecidableEq, Repr

/-- The bot's `contact_data` dict (`handle_contact` / `handle_phone_contact`). -/
structure ContactData where
  first_name : String := ""
  last_name : String := ""
  email : String := ""
  phone : String := ""
  customFields : List (String × String) := []
deriving DecidableEq, Repr

/-- The JSON body of a contact create/update request
(`{"firstName": ..., "lastName": ..., "email": ..., "phone": ..., "source": ...}`). -/
structure ContactPayload where
  firstName : String
  lastName : String
  email : String
  phone : String
  source : String := "Zoom Integration"
deriving DecidableEq, Repr

/-- `payload` built by `create_contact` / `update_contact` from `contact_data`. -/
def payloadOf (cd : ContactData) : ContactPayload :=
  { firstName := cd.first_name, lastName := cd.last_name,
    email := cd.email, phone := cd.phone }

/-- The contact record the CRM stores for a create request (fresh id, no
deleted/archived marks). -/
def contactOfPayload (id : String) (p : ContactPayload) : Contact :=
  { id := id, firstName := p.firstName, lastName := p.lastName,
    email := p.email, phone := p.phone }

/-- The lists of candidate contacts the CRM server returns for each search
endpoint, abstracted over arbitrary server behaviour:
`GET /contacts/search?email=`, `?phone=`, `?name=`, and the general listing
`GET /contacts?query=`.  A failed request (non-200 / exception) behaves like
an empty candidate list in the client code. -/
structure Endpoints where
  emailSearch : String → List Contact
  phoneSearch : String → List Contact
  nameSearch : String → List Contact
  generalList : String → List Contact

/-- One outbound CRM API call, recorded in the environment's trace. -/
inductive ApiCall where
  | searchEmail (q : String)
  | searchPhone (q : String)
  | searchName (q : String)
  | searchGeneral (q : String)
  | createPost (payload : ContactPayload)
  | updatePut (id : String) (payload : ContactPayload)
  | notePost (contactId : String) (body : String)
deriving DecidableEq, Repr

/-- The CRM-side environment: stored contacts (search endpoints are derived
from it by exact field match, the general listing returns the whole store and
the client filters), a fresh-id counter for created contacts, the current
Unix time (`int(time.time())`), the wall-clock string
(`datetime.now().strftime(...)`), whether the CRM note endpoint answers
200/201, and the trace of API calls issued so far. -/
structure Env where
  contacts : List Contact := []
  nextId : Nat := 1
  time : Nat := 1700000000
  nowStr : String := "2024-01-01 00:00:00"
  noteOk : Bool := true
  calls : List ApiCall := []
deriving Repr

/-- The concrete server behaviour used by the stateful model: field-exact
search endpoints over the stored contacts, and a general listing returning
the full store. -/
def endpointsOf (contacts : List Contact) : Endpoints :=
  { emailSearch := fun q => contacts.filter (fun c => c.email == q)
  , phoneSearch := fun q => contacts.filter (fun c => c.phone == q)
  , nameSearch := fun q => contacts.filter (fun c => c.firstName == q)
  , generalList := fun _ => contacts }

/-! ## `GHLAPI` (src/src/apis/ghl_api.py) -/

/-- `GHLAPI.is_contact_active` (ghl_api.py lines 25–56): a contact whose
lowercased status is `deleted`/`archived`/`inactive`, or with a truthy
`deletedAt`/`archivedAt`, is inactive; everything else is active.  `dnd` is
read and logged but never affects the result. -/
def is_contact_active (c : Contact) : Bool :=
  let status := pyLower c.status
  !(status == "deleted" || status == "archived" || status == "inactive") &&
    c.deletedAt == "" && c.archivedAt == ""

/-- The client-side match test of `search_contact_general` (ghl_api.py lines
238–249): case-insensitive substring on email and on first+last name, and
separator-stripped substring on phone. -/
def generalMatch (query : String) (c : Contact) : Bool :=
  let query_lower := pyStrip (pyLower query)
  let contact_email := pyStrip (pyLower c.email)
  let contact_name := pyStrip (pyLower (c.firstName ++ " " ++ c.lastName))
  let contact_phone := pyStrip (cleanPhone c.phone)
  let query_clean := pyStrip (cleanPhone query_lower)
  substr query_lower contact_email || substr query_lower contact_name ||
    substr query_clean contact_phone

/-- `GHLAPI.search_contact_general` (ghl_api.py lines 217–257): walk the
listed contacts, skip inactive ones, return the first whose fields match the
query. -/
def search_contact_general (ep : Endpoints) (query : String) : Option Contact :=
  (ep.generalList query).find? (fun c => is_contact_active c && generalMatch query c)

/-- `GHLAPI.search_contact_by_email` (ghl_api.py lines 189–215): first active
contact among the email-endpoint candidates, else fall back to the general
search with the same query. -/
def search_contact_by_email (ep : Endpoints) (email : String) : Option Contact :=
  match (ep.emailSearch email).find? is_contact_active with
  | some c => some c
  | none => search_contact_general ep email

/-- `GHLAPI.search_contact_by_phone` (ghl_api.py lines 259–285). -/
def search_contact_by_phone (ep : Endpoints) (phone : String) : Option Contact :=
  match (ep.phoneSearch phone).find? is_contact_active with
  | some c => some c
  | none => search_contact_general ep phone

/-- `GHLAPI.search_contact_by_name` (ghl_api.py lines 287–313). -/
def search_contact_by_name (ep : Endpoints) (name : String) : Option Contact :=
  match (ep.nameSearch name).find? is_contact_active with
  | some c => some c
  | none => search_contact_general ep name

/-- `search_contact_general` against the environment, recording the HTTP GET. -/
def env_search_general (e : Env) (q : String) : Option Contact × Env :=
  (search_contact_general (endpointsOf e.contacts) q,
   { e with calls := e.calls ++ [ApiCall.searchGeneral q] })

/-- `search_contact_by_email` against the environment; a general-search
fallback issues a second HTTP GET. -/
def env_search_email (e : Env) (q : String) : Option Contact × Env :=
  match ((endpointsOf e.contacts).emailSearch q).find? is_contact_active with
  | some c => (some c, { e with calls := e.calls ++ [ApiCall.searchEmail q] })
  | none => env_search_general { e with calls := e.calls ++ [ApiCall.searchEmail q] } q

/-- `search_contact_by_phone` against the environment. -/
def env_search_phone (e : Env) (q : String) : Option Contact × Env :=
  match ((endpointsOf e.contacts).phoneSearch q).find? is_contact_active with
  | some c => (some c, { e with calls := e.calls ++ [ApiCall.searchPhone q] })
  | none => env_search_general { e with calls := e.calls ++ [ApiCall.searchPhone q] } q

/-- `search_contact_by_name` against the environment. -/
def env_search_name (e : Env) (q : String) : Option Contact × Env :=
  match ((endpointsOf e.contacts).nameSearch q).find? is_contact_active with
  | some c => (some c, { e with calls := e.calls ++ [ApiCall.searchName q] })
  | none => env_search_general { e with calls := e.calls ++ [ApiCall.searchName q] } q

/-- Apply an update payload to a stored contact (the CRM's `PUT` semantics:
the four payload fields replace the stored ones, everything else persists). -/
def applyUpdate (c : Contact) (p : ContactPayload) : Contact :=
  { c with firstName := p.firstName, lastName := p.lastName,
           email := p.email, phone := p.phone }

/-- `GHLAPI.update_contact` (ghl_api.py lines 164–187): `PUT /contacts/{id}`;
an unknown id is a 404, which the client maps to `None`. -/
def env_update_contact (e : Env) (id : String) (cd : ContactData) : Option Contact × Env :=
  let p := payloadOf cd
  let e1 := { e with calls := e.calls ++ [ApiCall.updatePut id p] }
  match e.contacts.find? (fun c => c.id == id) with
  | some old =>
      (some (applyUpdate old p),
       { e1 with contacts := e.contacts.map (fun c => if c.id == id then applyUpdate c p else c) })
  | none => (none, e1)

/-- The final `POST /contacts` of `create_contact` (ghl_api.py lines 141–159):
the CRM stores a fresh active contact built from the payload and returns it. -/
def create_contact_post (e : Env) (cd : ContactData) : Option Contact × Env :=
  let p := payloadOf cd
  let newC := contactOfPayload (toString e.nextId) p
  (some newC,
   { e with contacts := e.contacts ++ [newC], nextId := e.nextId + 1,
            calls := e.calls ++ [ApiCall.createPost p] })

/-- Name-collision stage of `create_contact` (ghl_api.py lines 125–139),
running with the possibly already mutated `contact_data` but the original
`email` local variable.  An active name match is updated instead; an inactive
match rewrites `contact_data['email']` to a Unix-time-suffixed address
(an email without `'@'` raises `IndexError`, caught as `None`). -/
def create_contact_name_stage (e : Env) (cd : ContactData) (origEmail : String) :
    Option Contact × Env :=
  if cd.first_name != "" then
    match env_search_name e cd.first_name with
    | (some existing, e1) =>
      if is_contact_active existing then
        env_update_contact e1 existing.id cd
      else if origEmail != "" && !(substr "@placeholder.com" origEmail) then
        match origEmail.splitOn "@" with
        | lpart :: dpart :: _ =>
            create_contact_post e1
              { cd with email := lpart ++ "_" ++ toString e.time ++ "@" ++ dpart }
        | _ => (none, e1)
      else
        create_contact_post e1
          { cd with email := "name_" ++ pyLower (replaceChar cd.first_name ' ' '_') ++
                             "_" ++ toString e.time ++ "@placeholder.com" }
    | (none, e1) => create_contact_post e1 cd
  else create_contact_post e cd

/-- Phone-collision stage of `create_contact` (ghl_api.py lines 109–123). -/
def create_contact_phone_stage (e : Env) (cd : ContactData) (origEmail : String) :
    Option Contact × Env :=
  if cd.phone != "" then
    match env_search_phone e cd.phone with
    | (some existing, e1) =>
      if is_contact_active existing then
        env_update_contact e1 existing.id cd
      else if origEmail != "" && !(substr "@placeholder.com" origEmail) then
        match origEmail.splitOn "@" with
        | lpart :: dpart :: _ =>
            create_contact_name_stage e1
              { cd with email := lpart ++ "_" ++ toString e.time ++ "@" ++ dpart } origEmail
        | _ => (none, e1)
      else
        create_contact_name_stage e1
          { cd with email := "phone_" ++ cleanPhone cd.phone ++ "_" ++ toString e.time ++
                             "@placeholder.com" } origEmail
    | (none, e1) => create_contact_name_stage e1 cd origEmail
  else create_contact_name_stage e cd origEmail

/-- `GHLAPI.create_contact` (ghl_api.py lines 90–162).  Three sequential
collision checks (email, phone, name) against the search helpers — each an
active-match update (early return) or an inactive-match rewrite of
`contact_data['email']` to a fresh Unix-time-suffixed address — then the
`POST`.  The `email`, `phone` and `first_name` locals used in the conditions
are captured on entry, before any mutation. -/
def create_contact (e : Env) (cd : ContactData) : Option Contact × Env :=
  let origEmail := cd.email
  if origEmail != "" && !(substr "@placeholder.com" origEmail) then
    match env_search_email e origEmail with
    | (some existing, e1) =>
      if is_contact_active existing then
        env_update_contact e1 existing.id cd
      else
        match origEmail.splitOn "@" with
        | lpart :: dpart :: _ =>
            create_contact_phone_stage e1
              { cd with email := lpart ++ "_" ++ toString e.time ++ "@" ++ dpart } origEmail
        | _ => (none, e1)
    | (none, e1) => create_contact_phone_stage e1 cd origEmail
  else create_contact_phone_stage e cd origEmail

/-! ## `ZoomGHLBot` (src/src/core/webhook_handler.py) -/

/-- A `user_data` dict handed to `handle_contact` / `handle_phone_contact`.
Absent keys are empty strings. -/
structure UserData where
  email : String := ""
  user_id : String := ""
  phone : String := ""
  first_name : String := ""
  last_name : String := ""
  user_name : String := ""
  name : String := ""
  participant_uuid : String := ""
  participant_user_id : String := ""
deriving DecidableEq, Repr

/-- The bot's in-memory dedup state: the two bounded "seen" sets
(`processed_events`, `processed_notes`), modelled as duplicate-free lists. -/
structure BotState where
  processed_events : List String := []
  processed_notes : List String := []
deriving DecidableEq, Repr

/-- One meeting participant dict from the webhook payload.  `reprHash`
carries the (process-salted, hence opaque) value of Python
`hash(str(participant))`, used only for the last-resort placeholder email. -/
structure Participant where
  email : String := ""
  email_address : String := ""
  user_id : String := ""
  participant_user_id : String := ""
  participant_uuid : String := ""
  first_name : String := ""
  last_name : String := ""
  user_name : String := ""
  phone : String := ""
deriving DecidableEq, Repr

/-- Hash input accompanying a participant: models `hash(str(participant))`. -/
structure HashedParticipant where
  part : Participant
  reprHash : Nat := 0
deriving DecidableEq, Repr

/-- The `payload.object` dict of a webhook event, restricted to the fields
the embedded code paths read.  `reprHash` models `hash(str(payload))` for
the fallback event-id branch.  The `participant` key may hold a dict or a
list in Zoom's JSON; the source normalizes a dict to a one-element list, so
the model carries a list. -/
structure PayloadObject where
  uuid : String := ""
  host_id : String := ""
  topic : String := ""
  start_time : String := ""
  caller_number : String := ""
  callee_number : String := ""
  call_id : String := ""
  id : String := ""
  sender_phone_number : String := ""
  message_id : String := ""
  participant : List HashedParticipant := []
  host : Option HashedParticipant := none
  reprHash : Nat := 0
deriving DecidableEq, Repr

/-- A webhook event body: `event`, `event_ts`, `payload.object`, and the
`payload.plainToken` of the URL-validation handshake. -/
structure Event where
  event : String := ""
  event_ts : String := ""
  object : PayloadObject := {}
  plainToken : String := ""
deriving DecidableEq, Repr

/-- `ZoomGHLBot.generate_event_id` (webhook_handler.py lines 52–76):
event-category-specific key built from the stable payload fields; the
fallback key uses the process-salted `hash(str(payload)) % 10000`. -/
def generate_event_id (ev : Event) : String :=
  let event_type := ev.event
  let payload := ev.object
  let event_ts := ev.event_ts
  if substr "phone.call" (pyLower event_type) then
    event_type ++ "_" ++ payload.caller_number ++ "_" ++ payload.callee_number ++
      "_" ++ payload.call_id ++ "_" ++ event_ts
  else if substr "phone.recording" (pyLower event_type) then
    event_type ++ "_" ++ payload.caller_number ++ "_" ++ payload.callee_number ++
      "_" ++ payload.id ++ "_" ++ event_ts
  else if substr "sms" (pyLower event_type) then
    event_type ++ "_" ++ payload.sender_phone_number ++ "_" ++ payload.message_id ++
      "_" ++ event_ts
  else if substr "meeting" (pyLower event_type) then
    event_type ++ "_" ++ payload.uuid ++ "_" ++ payload.host_id ++ "_" ++ event_ts
  else
    event_type ++ "_" ++ event_ts ++ "_" ++ toString (payload.reprHash % 10000)

/-- `ZoomGHLBot.is_event_processed` (lines 78–82): membership in the set. -/
def is_event_processed (st : BotState) (event_id : String) : Bool :=
  st.processed_events.contains event_id

/-- `ZoomGHLBot.mark_event_processed` (lines 84–87): `set.add`, then a full
`clear` once the set's size exceeds 1,000. -/
def mark_event_processed (st : BotState) (event_id : String) : BotState :=
  let s := if st.processed_events.contains event_id then st.processed_events
           else st.processed_events ++ [event_id]
  if s.length > 1000 then { st with processed_events := [] }
  else { st with processed_events := s }

/-- `ZoomGHLBot.generate_note_id` (lines 89–92):
`f"{contact_id}_{md5(note_content)[:8]}"`. -/
def generate_note_id (contact_id : String) (note_content : String) : String :=
  contact_id ++ "_" ++ ⟨(md5Hex note_content).data.take 8⟩

/-- `ZoomGHLBot.is_note_processed` (lines 94–98). -/
def is_note_processed (st : BotState) (note_id : String) : Bool :=
  st.processed_notes.contains note_id

/-- `ZoomGHLBot.mark_note_processed` (lines 100–103): same bounded-set policy
as the event set, on the independent note set. -/
def mark_note_processed (st : BotState) (note_id : String) : BotState :=
  let s := if st.processed_notes.contains note_id then st.processed_notes
           else st.processed_notes ++ [note_id]
  if s.length > 1000 then { st with processed_notes := [] }
  else { st with processed_notes := s }

/-- `ZoomGHLBot.verify_webhook` (lines 105–129): strip a leading `v0=` or
`sha256=` from the signature header, compute the hex HMAC-SHA256 of the raw
payload under the configured verification token, and compare
(`hmac.compare_digest`, i.e. plain equality up to timing). -/
def verify_webhook (verificationToken payload signature : String) : Bool :=
  let sig := signature.data
  let sig := if "v0=".data.isPrefixOf sig then sig.drop 3
             else if "sha256=".data.isPrefixOf sig then sig.drop 7
             else sig
  sig == (hmacSha256Hex verificationToken payload).data

/-- The inner `is_phone_number` helper of `handle_contact` (lines 141–145):
at least ten characters, all digits once `+ - space ( )` are removed. -/
def is_phone_number (text : String) : Bool :=
  if text == "" then false
  else
    let clean_text := removeChars text ['+', '-', ' ', '(', ')']
    pyIsDigit clean_text && clean_text.length ≥ 10

/-- The coalesced display name of `handle_contact` (lines 139–149):
`first_name or user_name or name`, replaced by a generic label when it is
really a phone number. -/
def hcName (ud : UserData) : String :=
  let name0 := if ud.first_name != "" then ud.first_name
               else if ud.user_name != "" then ud.user_name
               else ud.name
  if is_phone_number name0 then "Meeting Participant" else name0

/-- The `contact_data` dict built by `handle_contact` for creation
(lines 198–226), including the placeholder-email chain. -/
def hcContactData (ud : UserData) (name : String) : ContactData :=
  { first_name := name
  , last_name := ud.last_name
  , email :=
      if ud.email != "" then ud.email
      else if ud.phone != "" then
        "phone_" ++ cleanPhone ud.phone ++ "@placeholder.com"
      else if ud.participant_uuid != "" then
        "zoom_participant_" ++ ud.participant_uuid ++ "@placeholder.com"
      else if ud.user_id != "" then
        "zoom_user_" ++ ud.user_id ++ "@placeholder.com"
      else "zoom_unknown@placeholder.com"
  , phone := ud.phone
  , customFields :=
      if ud.email == "" && ud.user_id != "" then [("zoom_user_id", ud.user_id)]
      else if ud.phone != "" && ud.email == "" && ud.user_id == "" then
        [("phone_source", "zoom_phone")]
      else [] }

/-- Final-check stage of `handle_contact` (lines 185–240): the broad general
search over whichever identifier is present, then creation.  The
`if existing_contact` block at source lines 193–196 is unreachable (every
found contact was already returned) and has no functional translation. -/
def hcGeneralStage (e : Env) (ud : UserData) (name : String) : Option String × Env :=
  match (if ud.email != "" || ud.phone != "" || name != "" then
           env_search_general e
             (if ud.email != "" then ud.email
              else if ud.phone != "" then ud.phone else name)
         else (none, e)) with
  | (some c, e1) => (some c.id, e1)
  | (none, e1) =>
    match create_contact e1 (hcContactData ud name) with
    | (some c, e2) => (some c.id, e2)
    | (none, e2) => (none, e2)

/-- Name-search stage of `handle_contact` (lines 177–183). -/
def hcNameStage (e : Env) (ud : UserData) (name : String) : Option String × Env :=
  match (if name != "" then env_search_name e name else (none, e)) with
  | (some c, e1) => (some c.id, e1)
  | (none, e1) => hcGeneralStage e1 ud name

/-- Phone-search stage of `handle_contact` (lines 169–175). -/
def hcPhoneStage (e : Env) (ud : UserData) (name : String) : Option String × Env :=
  match (if ud.phone != "" then env_search_phone e ud.phone else (none, e)) with
  | (some c, e1) => (some c.id, e1)
  | (none, e1) => hcNameStage e1 ud name

/-- `ZoomGHLBot.handle_contact` (webhook_handler.py lines 131–240) — the
general resolve-or-create policy.  Coalesce the name (replacing a phone
number mistakenly stored as a name), bail out when no identifier at all is
present, then search email → phone → name → general, returning the first
hit; otherwise create a contact with a placeholder email when none is
available. -/
def handle_contact (e : Env) (ud : UserData) : Option String × Env :=
  let name := hcName ud
  if ud.email == "" && ud.user_id == "" && ud.phone == "" && name == "" then
    (none, e)
  else
    match (if ud.email != "" then env_search_email e ud.email else (none, e)) with
    | (some c, e1) => (some c.id, e1)
    | (none, e1) => hcPhoneStage e1 ud name

/-- `ZoomGHLBot.handle_phone_contact` (webhook_handler.py lines 242–292) —
the phone-only policy: search by phone, then a general search on the phone,
then create with the phone number as the name and a phone-keyed placeholder
email. -/
def handle_phone_contact (e : Env) (ud : UserData) : Option String × Env :=
  let phone := ud.phone
  if phone == "" then (none, e)
  else
    match env_search_phone e phone with
    | (some c, e1) => (some c.id, e1)
    | (none, e1) =>
      match env_search_general e1 phone with
      | (some c, e2) => (some c.id, e2)
      | (none, e2) =>
        let cd : ContactData :=
          { first_name := phone
          , last_name := ""
          , email := "phone_" ++ cleanPhone phone ++ "@placeholder.com"
          , phone := phone
          , customFields := [("phone_source", "zoom_phone")] }
        match create_contact e2 cd with
        | (some c, e3) => (some c.id, e3)
        | (none, e3) => (none, e3)

/-- The note body rendered by `log_activity` (lines 302–310, after
`.strip()`), with `datetime.now()` supplied by the environment. -/
def activityNote (e : Env) (activity_type : String) (data : PayloadObject) : String :=
  let meeting_id := if data.uuid == "" then "N/A" else data.uuid
  let topic := if data.topic == "" then "N/A" else data.topic
  let start_time := if data.start_time == "" then "N/A" else data.start_time
  let meeting_url := if meeting_id != "N/A" then "https://zoom.us/j/" ++ meeting_id
                     else "N/A"
  "Zoom " ++ pyTitle activity_type ++ " Activity:\n- Topic: " ++ topic ++
    "\n- Start Time: " ++ start_time ++ "\n- Meeting ID: " ++ meeting_id ++
    "\n- Meeting URL: " ++ meeting_url ++
    "\n- Source: Zoom Integration\n- Logged: " ++ e.nowStr

/-- `ZoomGHLBot.log_activity` (webhook_handler.py lines 294–332): render the
note, skip (successfully) if its key is already in the note set, otherwise
`POST` it; mark the key only on a 200/201 response, report failure
otherwise. -/
def log_activity (e : Env) (st : BotState) (contact_id : String)
    (activity_type : String) (data : PayloadObject) : Bool × Env × BotState :=
  let note_content := activityNote e activity_type data
  let note_id := generate_note_id contact_id note_content
  if is_note_processed st note_id then (true, e, st)
  else
    let e1 := { e with calls := e.calls ++ [ApiCall.notePost contact_id note_content] }
    if e.noteOk then (true, e1, mark_note_processed st note_id)
    else (false, e1, st)

/-- The placeholder-email chain of `process_meeting_event` (lines 645–660). -/
def meetingParticipantEmail (hp : HashedParticipant) : String :=
  let p := hp.part
  let email := if p.email != "" then p.email else p.email_address
  if email != "" then email
  else if p.participant_uuid != "" then
    "zoom_participant_" ++ p.participant_uuid ++ "@placeholder.com"
  else if p.participant_user_id != "" then
    "zoom_participant_" ++ p.participant_user_id ++ "@placeholder.com"
  else if p.user_id != "" then
    "zoom_user_" ++ p.user_id ++ "@placeholder.com"
  else if p.first_name != "" || p.last_name != "" then
    "zoom_participant_" ++ pyLower (replaceChar (p.first_name ++ "_" ++ p.last_name) ' ' '_') ++
      "@placeholder.com"
  else if p.user_name != "" then
    "zoom_participant_" ++ pyLower (replaceChar p.user_name ' ' '_') ++ "@placeholder.com"
  else if p.phone != "" then
    "zoom_participant_" ++ cleanPhone p.phone ++ "@placeholder.com"
  else
    "zoom_unknown_" ++ toString (hp.reprHash % 10000) ++ "@placeholder.com"

/-- The participant loop of `process_meeting_event` (lines 632–684): resolve
each participant, log the meeting note once per distinct contact id
(tracked in the per-event `processed_contacts` set), ignoring the logging
call's result. -/
def meetingLoop (event_type : String) (md : PayloadObject) :
    List HashedParticipant → Env → BotState → List String → Env × BotState
  | [], e, st, _ => (e, st)
  | hp :: rest, e, st, done =>
    let p := hp.part
    let ud : UserData :=
      { email := meetingParticipantEmail hp
      , first_name := p.first_name
      , last_name := p.last_name
      , user_name := p.user_name
      , phone := p.phone
      , user_id := p.user_id
      , participant_user_id := p.participant_user_id
      , participant_uuid := p.participant_uuid }
    match handle_contact e ud with
    | (some cid, e1) =>
      if done.contains cid then meetingLoop event_type md rest e1 st done
      else
        let r := log_activity e1 st cid event_type md
        meetingLoop event_type md rest r.2.1 r.2.2 (done ++ [cid])
    | (none, e1) => meetingLoop event_type md rest e1 st done

/-- `ZoomGHLBot.process_meeting_event` (webhook_handler.py lines 608–692):
take the payload's participants (falling back to the host), run the loop,
and report success — per-participant failures, including failed note
`POST`s, never flip the result. -/
def process_meeting_event (e : Env) (st : BotState) (ev : Event) : Bool × Env × BotState :=
  let meeting_data := ev.object
  let participants :=
    if meeting_data.participant.isEmpty then
      match meeting_data.host with
      | some h => [h]
      | none => []
    else meeting_data.participant
  let r := meetingLoop ev.event meeting_data participants e st []
  (true, r.1, r.2)

/-- The handlers for the non-meeting event categories (SMS, phone call,
phone/meeting recording) are outside the claims under verification; the
dispatcher is parametrized over their joint behaviour. -/
def OtherHandler : Type := Env → BotState → Event → Bool × Env × BotState

/-- `ZoomGHLBot.process_webhook` (webhook_handler.py lines 390–423): derive
the event key, short-circuit (as success) if it was already seen, dispatch
on case-insensitive substrings of the event type, and mark the key only when
the handler reported success. -/
def process_webhook (e : Env) (st : BotState) (other : OtherHandler) (ev : Event) :
    Bool × Env × BotState :=
  let event_id := generate_event_id ev
  if is_event_processed st event_id then (true, e, st)
  else
    let et := pyLower ev.event
    let r :=
      if substr "sms" et || substr "message" et then other e st ev
      else if substr "phone.call.caller" et || substr "phone.call.callee" et then other e st ev
      else if substr "phone.recording" et || substr "call.recording" et then other e st ev
      else if substr "recording" et then other e st ev
      else process_meeting_event e st ev
    if r.1 then (r.1, r.2.1, mark_event_processed r.2.2 event_id)
    else r

/-- The dispatch conditions of `process_webhook` all negative: the event
routes to `process_meeting_event`. -/
def routesToMeeting (event_type : String) : Bool :=
  let et := pyLower event_type
  !(substr "sms" et) && !(substr "message" et) &&
    !(substr "phone.call.caller" et) && !(substr "phone.call.callee" et) &&
    !(substr "phone.recording" et) && !(substr "call.recording" et) &&
    !(substr "recording" et)

/-! ## The webhook route (src/src/main.py) -/

/-- Outcome of the `/zoom-webhook` route. -/
inductive RouteResponse where
  | validation (plainToken : String) (encryptedToken : String)
  | ok
  | failure (status : Nat) (detail : String)
deriving DecidableEq, Repr

/-- `zoom_webhook` (src/src/main.py lines 27–69).  The URL-validation
handshake answers with the base64 HMAC of the plain token under the
`secret-token`; every other event goes straight to `process_webhook`: the
`X-Zm-Signature` header is read into `signature` but — per the source's own
`"Skipping signature verification for testing"` — never checked. -/
def zoom_webhook (secretToken : String) (e : Env) (st : BotState)
    (other : OtherHandler) (ev : Event) (signature : String) :
    RouteResponse × Env × BotState :=
  let _ := signature
  if ev.event == "endpoint.url_validation" && ev.plainToken != "" then
    (RouteResponse.validation ev.plainToken (b64HmacSha256 secretToken ev.plainToken), e, st)
  else
    let r := process_webhook e st other ev
    if r.1 then (RouteResponse.ok, r.2.1, r.2.2)
    else (RouteResponse.failure 500 "Failed to process event", r.2.1, r.2.2)

/-! ## General lemmas about the embedding -/

/-- A contact found by the general search passes the activity predicate. -/
lemma active_of_general {ep : Endpoints} {q : String} {c : Contact}
    (h : search_contact_general ep q = some c) : is_contact_active c = true := by
  unfold search_contact_general at h
  have h2 := List.find?_some h
  simp only [Bool.and_eq_true] at h2
  exact h2.1

/-- A contact found by the email search passes the activity predicate. -/
lemma active_of_email {ep : Endpoints} {q : String} {c : Contact}
    (h : search_contact_by_email ep q = some c) : is_contact_active c = true := by
  unfold search_contact_by_email at h
  split at h
  · cases h; exact List.find?_some (by assumption)
  · exact active_of_general h

/-- A contact found by the phone search passes the activity predicate. -/
lemma active_of_phone {ep : Endpoints} {q : String} {c : Contact}
    (h : search_contact_by_phone ep q = some c) : is_contact_active c = true := by
  unfold search_contact_by_phone at h
  split at h
  · cases h; exact List.find?_some (by assumption)
  · exact active_of_general h

/-- A contact found by the name search passes the activity predicate. -/
lemma active_of_name {ep : Endpoints} {q : String} {c : Contact}
    (h : search_contact_by_name ep q = some c) : is_contact_active c = true := by
  unfold search_contact_by_name at h
  split at h
  · cases h; exact List.find?_some (by assumption)
  · exact active_of_general h

/-- Unpack the activity predicate into its defining clauses. -/
lemma active_spec {c : Contact} (h : is_contact_active c = true) :
    pyLower c.status ≠ "deleted" ∧ pyLower c.status ≠ "archived" ∧
    pyLower c.status ≠ "inactive" ∧ c.deletedAt = "" ∧ c.archivedAt = "" := by
  simp only [is_contact_active, Bool.and_eq_true, Bool.not_eq_true',
    Bool.or_eq_false_iff, beq_eq_false_iff_ne, beq_iff_eq] at h
  exact ⟨h.1.1.1.1, h.1.1.1.2, h.1.1.2, h.1.2, h.2⟩

/-! ## Claim C1 -/

/-- C1: for every contact returned as a match by the resolver's search
operations (`search_contact_by_email`, `search_contact_by_phone`,
`search_contact_by_name`, `search_contact_general`), over arbitrary CRM
server responses, the contact is active: its (lowercased) status is none of
`deleted`/`archived`/`inactive` and its `deletedAt`/`archivedAt` fields are
empty.  A contact failing `is_contact_active` is skipped during the search
loops and never returned as a match; the searches are read-only, so no
contact is implicitly reactivated. -/
theorem c1_searches_return_only_active (ep : Endpoints) (q : String) (c : Contact)
    (h : search_contact_by_email ep q = some c ∨ search_contact_by_phone ep q = some c ∨
         search_contact_by_name ep q = some c ∨ search_contact_general ep q = some c) :
    is_contact_active c = true ∧ pyLower c.status ≠ "deleted" ∧
    pyLower c.status ≠ "archived" ∧ pyLower c.status ≠ "inactive" ∧
    c.deletedAt = "" ∧ c.archivedAt = "" := by
  have hact : is_contact_active c = true := by
    rcases h with h | h | h | h
    · exact active_of_email h
    · exact active_of_phone h
    · exact active_of_name h
    · exact active_of_general h
  exact ⟨hact, active_spec hact⟩

/-- A concrete active contact used to witness C1. -/
def c1Contact : Contact := { id := "w1", firstName := "Wit", email := "w@x.com" }

/-- Witness for C1: a concrete email search that returns `c1Contact`. -/
theorem c1_witness :
    (search_contact_by_email (endpointsOf [c1Contact]) "w@x.com" = some c1Contact ∨
     search_contact_by_phone (endpointsOf [c1Contact]) "w@x.com" = some c1Contact ∨
     search_contact_by_name (endpointsOf [c1Contact]) "w@x.com" = some c1Contact ∨
     search_contact_general (endpointsOf [c1Contact]) "w@x.com" = some c1Contact) ∧
    (is_contact_active c1Contact = true ∧ pyLower c1Contact.status ≠ "deleted" ∧
     pyLower c1Contact.status ≠ "archived" ∧ pyLower c1Contact.status ≠ "inactive" ∧
     c1Contact.deletedAt = "" ∧ c1Contact.archivedAt = "") :=
  ⟨Or.inl (by decide),
   c1_searches_return_only_active (endpointsOf [c1Contact]) "w@x.com" c1Contact
     (Or.inl (by decide))⟩

/-! ## Claim C5 -/

/-- C5 counterexample: a descriptor whose email, phone, and all name fields
are empty but whose `user_id` is set.  The claim demands that
`resolve_or_create` return null with no CRM call; instead `handle_contact`
skips every search (all search keys are empty) and creates a contact with a
`zoom_user_<id>@placeholder.com` email — a CRM `POST` — returning its id. -/
theorem c5_counterexample :
    (handle_contact { } { user_id := "u1" }).1 = some "1" ∧
    (handle_contact { } { user_id := "u1" }).2.calls =
      [ApiCall.createPost
        { firstName := "", lastName := "",
          email := "zoom_user_u1@placeholder.com", phone := "" }] := by
  constructor
  · rfl
  · rfl

/-- C5 as amended: when email, phone, every name source, *and* `user_id` are
all empty, `handle_contact` returns `none` and the environment — including
the CRM call trace — is untouched: no search, no create, no update. -/
theorem c5_amended_no_identifiers (e : Env) (ud : UserData)
    (h1 : ud.email = "") (h2 : ud.user_id = "") (h3 : ud.phone = "")
    (h4 : ud.first_name = "") (h5 : ud.user_name = "") (h6 : ud.name = "") :
    handle_contact e ud = (none, e) := by
  unfold handle_contact hcName is_phone_number
  simp [h1, h2, h3, h4, h5, h6, pyIsDigit, removeChars]

/-- Witness for C5's amended theorem at the empty descriptor. -/
theorem c5_witness :
    handle_contact { nextId := 3 } { } = (none, { nextId := 3 }) :=
  c5_amended_no_identifiers { nextId := 3 } { } rfl rfl rfl rfl rfl rfl

/-! ## Claim C7 -/

/-- C7: for a descriptor whose email search yields an active CRM contact
(the first active candidate of the email endpoint), `handle_contact` returns
exactly that contact's id, issues exactly one CRM call (the email search,
which short-circuits the rest of the cascade), stores nothing new, and in
particular never calls create. -/
theorem c7_active_email_match (e : Env) (ud : UserData) (c : Contact)
    (hemail : ud.email ≠ "")
    (hfind : ((endpointsOf e.contacts).emailSearch ud.email).find? is_contact_active
               = some c) :
    handle_contact e ud =
      (some c.id, { e with calls := e.calls ++ [ApiCall.searchEmail ud.email] }) := by
  have hbe : (ud.email == "") = false := beq_eq_false_iff_ne.mpr hemail
  have hne : (ud.email != "") = true := by simp [bne, hbe]
  unfold handle_contact env_search_email
  rw [hfind]
  simp [hbe, hne]

/-- Concrete environment for the C7 witness: one active stored contact. -/
def c7Env : Env := { contacts := [{ id := "a9", firstName := "Ann", email := "ann@x.com" }] }

/-- Witness for C7 at a concrete active email match. -/
theorem c7_witness :
    handle_contact c7Env { email := "ann@x.com" } =
      (some "a9", { c7Env with calls := [ApiCall.searchEmail "ann@x.com"] }) :=
  c7_active_email_match c7Env { email := "ann@x.com" }
    { id := "a9", firstName := "Ann", email := "ann@x.com" } (by decide) (by decide)

/-! ## Claim C8 -/

/-- C8: the processed-events and processed-notes sets are bounded with
hard-clear-on-overflow.  `mark` adds the key; if the set's size then exceeds
1,000 entries the whole set is cleared, otherwise `seen` of the marked key
is true; and a key already seen stays seen across further marks unless such
a clear happens. -/
theorem c8_bounded_dedup_sets (st : BotState) (k k' : String) :
    ((if st.processed_events.contains k then st.processed_events
      else st.processed_events ++ [k]).length ≤ 1000 →
        is_event_processed (mark_event_processed st k) k = true) ∧
    ((if st.processed_events.contains k then st.processed_events
      else st.processed_events ++ [k]).length > 1000 →
        (mark_event_processed st k).processed_events = []) ∧
    (is_event_processed st k = true →
      (mark_event_processed st k').processed_events = [] ∨
        is_event_processed (mark_event_processed st k') k = true) ∧
    ((if st.processed_notes.contains k then st.processed_notes
      else st.processed_notes ++ [k]).length ≤ 1000 →
        is_note_processed (mark_note_processed st k) k = true) ∧
    ((if st.processed_notes.contains k then st.processed_notes
      else st.processed_notes ++ [k]).length > 1000 →
        (mark_note_processed st k).processed_notes = []) ∧
    (is_note_processed st k = true →
      (mark_note_processed st k').processed_notes = [] ∨
        is_note_processed (mark_note_processed st k') k = true) := by
  simp only [is_event_processed, is_note_processed, mark_event_processed,
    mark_note_processed]
  refine ⟨?_, ?_, ?_, ?_, ?_, ?_⟩ <;> intro h
  · rw [if_neg (by omega)]
    by_cases hc : st.processed_events.contains k = true <;> simp_all
  · rw [if_pos h]
  · have hm : k ∈ st.processed_events := by simpa using h
    by_cases hc : st.processed_events.contains k' = true
    · simp only [if_pos hc]
      split
      · exact Or.inl rfl
      · exact Or.inr h
    · simp only [if_neg hc]
      split
      · exact Or.inl rfl
      · refine Or.inr ?_
        simp [hm]
  · rw [if_neg (by omega)]
    by_cases hc : st.processed_notes.contains k = true <;> simp_all
  · rw [if_pos h]
  · have hm : k ∈ st.processed_notes := by simpa using h
    by_cases hc : st.processed_notes.contains k' = true
    · simp only [if_pos hc]
      split
      · exact Or.inl rfl
      · exact Or.inr h
    · simp only [if_neg hc]
      split
      · exact Or.inl rfl
      · refine Or.inr ?_
        simp [hm]


set_option maxRecDepth 100000 in
/-- Witness for C8: marking a fresh key in a small state makes it seen; a
1,000-element set overflows on the next distinct mark and is cleared. -/
theorem c8_witness :
    is_event_processed (mark_event_processed { } "k") "k" = true ∧
    (mark_event_processed
        { processed_events := (List.range 1000).map toString } "x").processed_events = [] :=
  ⟨(c8_bounded_dedup_sets { } "k" "k").1 (by decide),
   (c8_bounded_dedup_sets { processed_events := (List.range 1000).map toString } "x" "x").2.1
     (by decide)⟩

/-! ## Claims C9 and C10: signature verification -/

/-- A SHA-256 digest is non-empty (its first byte is the top byte of `a`). -/
lemma sha256Bytes_cons (m : List Nat) : ∃ b rest, sha256Bytes m = b :: rest :=
  ⟨_, _, rfl⟩

/-- An HMAC-SHA256 digest is non-empty. -/
lemma hmacSha256_cons (key msg : List Nat) : ∃ b rest, hmacSha256 key msg = b :: rest := by
  unfold hmacSha256
  exact sha256Bytes_cons _

/-- Hex digits are never `'v'` or `'s'` (the first characters of the two
known signature prefixes). -/
lemma hexDigit_ne (n : Nat) : hexDigit n ≠ 'v' ∧ hexDigit n ≠ 's' := by
  unfold hexDigit
  split <;> exact ⟨by decide, by decide⟩

/-- A hex digest string never starts with the `v0=` prefix. -/
lemma not_v0_isPrefixOf_hex (b : Nat) (rest : List Nat) :
    ("v0=".data.isPrefixOf (hexChars (b :: rest))) = false := by
  have hv : ('v' == hexDigit (b / 16)) = false :=
    beq_eq_false_iff_ne.mpr (fun hh => (hexDigit_ne (b / 16)).1 hh.symm)
  show (('v' :: '0' :: '=' :: []).isPrefixOf
    (hexDigit (b / 16) :: hexDigit (b % 16) :: hexChars rest)) = false
  simp only [List.isPrefixOf, hv, Bool.false_and]

/-- A hex digest string never starts with the `sha256=` prefix. -/
lemma not_sha256_isPrefixOf_hex (b : Nat) (rest : List Nat) :
    ("sha256=".data.isPrefixOf (hexChars (b :: rest))) = false := by
  have hs : ('s' == hexDigit (b / 16)) = false :=
    beq_eq_false_iff_ne.mpr (fun hh => (hexDigit_ne (b / 16)).2 hh.symm)
  show (('s' :: 'h' :: 'a' :: '2' :: '5' :: '6' :: '=' :: []).isPrefixOf
    (hexDigit (b / 16) :: hexDigit (b % 16) :: hexChars rest)) = false
  simp only [List.isPrefixOf, hs, Bool.false_and]

/-- The character data of an HMAC hex digest, exposed in cons form. -/
lemma hmacSha256Hex_data (token payload : String) :
    ∃ b rest, (hmacSha256Hex token payload).data = hexChars (b :: rest) ∧
      hmacSha256 (utf8Encode token) (utf8Encode payload) = b :: rest := by
  obtain ⟨b, rest, hb⟩ := hmacSha256_cons (utf8Encode token) (utf8Encode payload)
  exact ⟨b, rest, by rw [hmacSha256Hex, hb], hb⟩

/-- `verify_webhook` with its let-bindings collapsed. -/
lemma verify_webhook_eq (token payload signature : String) :
    verify_webhook token payload signature =
      ((if "v0=".data.isPrefixOf signature.data then signature.data.drop 3
        else if "sha256=".data.isPrefixOf signature.data then signature.data.drop 7
        else signature.data) == (hmacSha256Hex token payload).data) := rfl

/-- C10: a bare, unprefixed hex HMAC-SHA256 digest of the body is accepted:
when the signature header carries neither the `v0=` nor the `sha256=`
prefix, `verify_webhook` compares the header as-is against the computed
digest — and a hex digest never starts with either prefix, so the correct
digest passed without a prefix verifies. -/
theorem c10_bare_digest_accepted (token payload : String) :
    verify_webhook token payload (hmacSha256Hex token payload) = true := by
  obtain ⟨b, rest, hdata, _⟩ := hmacSha256Hex_data token payload
  rw [verify_webhook_eq, hdata,
    if_neg (by rw [not_v0_isPrefixOf_hex]; simp),
    if_neg (by rw [not_sha256_isPrefixOf_hex]; simp)]
  exact beq_self_eq_true _

/-- C9: `verify_webhook` accepts the correct digest under a `v0=` prefix
(and equally under a `sha256=` prefix): it strips the known prefix and
compares the remainder with the hex HMAC-SHA256 digest of the raw body
under the shared secret.  A body whose digest differs from the one the
signature carries — in particular any flipped-byte variant that changes the
digest — is rejected.  (The unconditional claim that *every* distinct body
is rejected is equivalent to collision-freeness of HMAC-SHA256 and is not
provable; inequality of the digests is the exact condition.) -/
theorem c9_signature_verification (token body body' : String)
    (h : hmacSha256Hex token body' ≠ hmacSha256Hex token body) :
    verify_webhook token body ("v0=" ++ hmacSha256Hex token body) = true ∧
    verify_webhook token body ("sha256=" ++ hmacSha256Hex token body) = true ∧
    verify_webhook token body' ("v0=" ++ hmacSha256Hex token body) = false := by
  have hv0 : ("v0=" ++ hmacSha256Hex token body).data =
      'v' :: '0' :: '=' :: (hmacSha256Hex token body).data := by
    rw [String.data_append]; rfl
  have hsha : ("sha256=" ++ hmacSha256Hex token body).data =
      's' :: 'h' :: 'a' :: '2' :: '5' :: '6' :: '=' :: (hmacSha256Hex token body).data := by
    rw [String.data_append]; rfl
  have hpre : ∀ l : List Char, ("v0=".data.isPrefixOf ('v' :: '0' :: '=' :: l)) = true := by
    intro l
    show (('v' :: '0' :: '=' :: []).isPrefixOf ('v' :: '0' :: '=' :: l)) = true
    simp [List.isPrefixOf]
  have hpre7 : ∀ l : List Char,
      ("sha256=".data.isPrefixOf ('s' :: 'h' :: 'a' :: '2' :: '5' :: '6' :: '=' :: l)) = true := by
    intro l
    show (('s' :: 'h' :: 'a' :: '2' :: '5' :: '6' :: '=' :: []).isPrefixOf
      ('s' :: 'h' :: 'a' :: '2' :: '5' :: '6' :: '=' :: l)) = true
    simp [List.isPrefixOf]
  have hdrop3 : ∀ l : List Char, ('v' :: '0' :: '=' :: l).drop 3 = l := fun _ => rfl
  have hdrop7 : ∀ l : List Char,
      ('s' :: 'h' :: 'a' :: '2' :: '5' :: '6' :: '=' :: l).drop 7 = l := fun _ => rfl
  refine ⟨?_, ?_, ?_⟩
  · rw [verify_webhook_eq, hv0, if_pos (hpre _), hdrop3]
    exact beq_self_eq_true _
  · have hnv : ("v0=".data.isPrefixOf
        ('s' :: 'h' :: 'a' :: '2' :: '5' :: '6' :: '=' :: (hmacSha256Hex token body).data))
        = false := by
      show (('v' :: '0' :: '=' :: []).isPrefixOf ('s' :: _ :: _)) = false
      simp [List.isPrefixOf]
    rw [verify_webhook_eq, hsha, if_neg (by simp [hnv]), if_pos (hpre7 _), hdrop7]
    exact beq_self_eq_true _
  · rw [verify_webhook_eq, hv0, if_pos (hpre _), hdrop3]
    exact beq_eq_false_iff_ne.mpr (fun hd => h (String.ext hd).symm)

set_option maxRecDepth 200000 in
/-- Witness for C9 at concrete inputs: the body `"abc"` and its
flipped-last-byte variant `"abd"` have different HMAC digests under the
secret `"tk"`, so the correct prefixed signatures verify and the flipped
body is rejected. -/
theorem c9_witness :
    hmacSha256Hex "tk" "abd" ≠ hmacSha256Hex "tk" "abc" ∧
    (verify_webhook "tk" "abc" ("v0=" ++ hmacSha256Hex "tk" "abc") = true ∧
     verify_webhook "tk" "abc" ("sha256=" ++ hmacSha256Hex "tk" "abc") = true ∧
     verify_webhook "tk" "abd" ("v0=" ++ hmacSha256Hex "tk" "abc") = false) :=
  ⟨by decide, c9_signature_verification "tk" "abc" "abd" (by decide)⟩

/-! ## Claim C6 -/

/-- A soft-deleted CRM contact colliding on phone with the descriptor. -/
def c6Deleted : Contact :=
  { id := "d1", firstName := "Caller", email := "old@x.com",
    phone := "+15551234567", status := "deleted" }

/-- Environment holding only the soft-deleted phone collision. -/
def c6Env : Env := { contacts := [c6Deleted], nextId := 7 }

/-- The phone-only descriptor of a telephony event. -/
def c6Descriptor : UserData := { phone := "+15551234567" }

/-- C6, refuted on the code: for a descriptor matching only a *deleted*
contact by phone, the claimed fresh Unix-time-suffixed placeholder email is
never produced.  The search helpers filter out inactive contacts, so
`create_contact`'s deleted-collision branch (ghl_api.py lines 109–123, with
its own log line about "generating unique email to avoid restoration")
cannot see the deleted match and never fires: the `POST` goes out with the
unsuffixed original placeholder, and no create payload contains the current
Unix time at all. -/
theorem c6_deleted_phone_no_suffix :
    is_contact_active c6Deleted = false ∧
    search_contact_by_phone (endpointsOf c6Env.contacts) "+15551234567" = none ∧
    (handle_phone_contact c6Env c6Descriptor).1 = some "7" ∧
    (handle_phone_contact c6Env c6Descriptor).2.calls.contains
      (ApiCall.createPost
        { firstName := "+15551234567", lastName := "",
          email := "phone_15551234567@placeholder.com",
          phone := "+15551234567" }) = true ∧
    ((handle_phone_contact c6Env c6Descriptor).2.calls.any (fun c =>
        match c with
        | ApiCall.createPost p => substr (toString c6Env.time) p.email
        | _ => false)) = false := by
  decide

/-! ## Claim C2 -/

/-- A participant with a real email, used in the concrete webhook runs. -/
def annParticipant : HashedParticipant :=
  { part := { email := "a@x.com", first_name := "Ann" } }

/-- A concrete `meeting.started` webhook event with one participant. -/
def meetEvent : Event :=
  { event := "meeting.started", event_ts := "123",
    object := { uuid := "uu1", host_id := "h1", topic := "Standup",
                start_time := "2024-01-01T10:00:00Z",
                participant := [annParticipant] } }

/-- A stand-in for the unmodelled handlers that always reports failure and
leaves all state alone. -/
def failOther : OtherHandler := fun e st _ => (false, e, st)

set_option maxRecDepth 400000 in
/-- C2, refuted on the code: the webhook route never runs payload-signature
verification.  `zoom_webhook` is literally independent of the signature
argument (first conjunct, for all inputs), and a concrete meeting event
submitted with the invalid signature `"v0=deadbeef"` — a signature
`verify_webhook` rejects — is fully processed anyway: the route answers OK,
the event key is marked processed, and CRM calls were issued. -/
theorem c2_signature_never_checked :
    (∀ (secret : String) (e : Env) (st : BotState) (other : OtherHandler)
       (ev : Event) (sig sig' : String),
        zoom_webhook secret e st other ev sig = zoom_webhook secret e st other ev sig') ∧
    (zoom_webhook "sek" { } { } failOther meetEvent "v0=deadbeef").1 = RouteResponse.ok ∧
    is_event_processed (zoom_webhook "sek" { } { } failOther meetEvent "v0=deadbeef").2.2
      (generate_event_id meetEvent) = true ∧
    (zoom_webhook "sek" { } { } failOther meetEvent "v0=deadbeef").2.1.calls ≠ [] ∧
    verify_webhook "tok" "raw webhook body" "v0=deadbeef" = false := by
  refine ⟨fun _ _ _ _ _ _ _ => rfl, ?_, ?_, ?_, ?_⟩ <;> decide

/-! ## Environment-configuration frame lemmas

No CRM operation changes the `time`, `nowStr` or `noteOk` fields of the
environment; `envCfg` projects exactly those fields. -/

/-- The immutable configuration slice of the environment. -/
def envCfg (e : Env) : String × Bool × Nat := (e.nowStr, e.noteOk, e.time)

lemma noteOk_of_cfg {e e' : Env} (h : envCfg e' = envCfg e) : e'.noteOk = e.noteOk :=
  congrArg (fun t => t.2.1) h

@[simp] lemma env_search_general_cfg (e : Env) (q : String) :
    envCfg (env_search_general e q).2 = envCfg e := rfl

@[simp] lemma env_search_email_cfg (e : Env) (q : String) :
    envCfg (env_search_email e q).2 = envCfg e := by
  unfold env_search_email
  split <;> rfl

@[simp] lemma env_search_phone_cfg (e : Env) (q : String) :
    envCfg (env_search_phone e q).2 = envCfg e := by
  unfold env_search_phone
  split <;> rfl

@[simp] lemma env_search_name_cfg (e : Env) (q : String) :
    envCfg (env_search_name e q).2 = envCfg e := by
  unfold env_search_name
  split <;> rfl

@[simp] lemma env_update_contact_cfg (e : Env) (id : String) (cd : ContactData) :
    envCfg (env_update_contact e id cd).2 = envCfg e := by
  unfold env_update_contact
  split <;> rfl

@[simp] lemma create_contact_post_cfg (e : Env) (cd : ContactData) :
    envCfg (create_contact_post e cd).2 = envCfg e := rfl

@[simp] lemma create_contact_name_stage_cfg (e : Env) (cd : ContactData) (o : String) :
    envCfg (create_contact_name_stage e cd o).2 = envCfg e := by
  unfold create_contact_name_stage
  split
  · split
    · rename_i existing e1 heq
      have h1 := congrArg Prod.snd heq
      simp only at h1
      subst h1
      split
      · simp
      · split
        · split <;> simp
        · simp
    · rename_i e1 heq
      have h1 := congrArg Prod.snd heq
      simp only at h1
      subst h1
      simp
  · simp

@[simp] lemma create_contact_phone_stage_cfg (e : Env) (cd : ContactData) (o : String) :
    envCfg (create_contact_phone_stage e cd o).2 = envCfg e := by
  unfold create_contact_phone_stage
  split
  · split
    · rename_i existing e1 heq
      have h1 := congrArg Prod.snd heq
      simp only at h1
      subst h1
      split
      · simp
      · split
        · split <;> simp
        · simp
    · rename_i e1 heq
      have h1 := congrArg Prod.snd heq
      simp only at h1
      subst h1
      simp
  · simp

@[simp] lemma create_contact_cfg (e : Env) (cd : ContactData) :
    envCfg (create_contact e cd).2 = envCfg e := by
  simp only [create_contact]
  split
  · split
    · rename_i existing e1 heq
      have h1 := congrArg Prod.snd heq
      simp only at h1
      subst h1
      split
      · simp
      · split <;> simp
    · rename_i e1 heq
      have h1 := congrArg Prod.snd heq
      simp only at h1
      subst h1
      simp
  · simp

@[simp] lemma hcGeneralStage_cfg (e : Env) (ud : UserData) (name : String) :
    envCfg (hcGeneralStage e ud name).2 = envCfg e := by
  have hcreate : ∀ (e' : Env),
      envCfg (match create_contact e' (hcContactData ud name) with
              | (some c, e2) => (some c.id, e2)
              | (none, e2) => ((none : Option String), e2)).2 = envCfg e' := by
    intro e'
    split <;> rename_i c e2 heq <;>
      (have h2 := congrArg Prod.snd heq; simp only at h2; subst h2; simp)
  unfold hcGeneralStage
  by_cases h : (ud.email != "" || ud.phone != "" || name != "") = true
  · simp only [if_pos h]
    split
    · rename_i c e1 heq
      have h1 := congrArg Prod.snd heq
      simp only at h1
      subst h1
      simp
    · rename_i e1 heq
      have h1 := congrArg Prod.snd heq
      simp only at h1
      subst h1
      exact (hcreate _).trans (by simp)
  · simp only [if_neg h]
    exact hcreate e

@[simp] lemma hcNameStage_cfg (e : Env) (ud : UserData) (name : String) :
    envCfg (hcNameStage e ud name).2 = envCfg e := by
  unfold hcNameStage
  by_cases h : (name != "") = true
  · simp only [if_pos h]
    split <;> rename_i c e1 heq <;>
      (have h1 := congrArg Prod.snd heq; simp only at h1; subst h1; simp)
  · simp only [if_neg h]
    simp

@[simp] lemma hcPhoneStage_cfg (e : Env) (ud : UserData) (name : String) :
    envCfg (hcPhoneStage e ud name).2 = envCfg e := by
  unfold hcPhoneStage
  by_cases h : (ud.phone != "") = true
  · simp only [if_pos h]
    split <;> rename_i c e1 heq <;>
      (have h1 := congrArg Prod.snd heq; simp only at h1; subst h1; simp)
  · simp only [if_neg h]
    simp

@[simp] lemma handle_contact_cfg (e : Env) (ud : UserData) :
    envCfg (handle_contact e ud).2 = envCfg e := by
  simp only [handle_contact]
  split
  · rfl
  · by_cases h : (ud.email != "") = true
    · simp only [if_pos h]
      split <;> rename_i c e1 heq <;>
        (have h1 := congrArg Prod.snd heq; simp only at h1; subst h1; simp)
    · simp only [if_neg h]
      simp

@[simp] lemma log_activity_env_cfg (e : Env) (st : BotState) (cid aty : String)
    (md : PayloadObject) :
    envCfg (log_activity e st cid aty md).2.1 = envCfg e := by
  simp only [log_activity]
  split
  · rfl
  · split <;> rfl

/-! ## Claim C3 -/

/-- On a failed note `POST` the note set is unchanged. -/
lemma log_activity_notes_of_fail {e : Env} (st : BotState) (cid aty : String)
    (md : PayloadObject) (h : e.noteOk = false) :
    (log_activity e st cid aty md).2.2 = st := by
  simp only [log_activity]
  split
  · rfl
  · simp [h]

/-- `log_activity` never touches the event set. -/
lemma log_activity_events (e : Env) (st : BotState) (cid aty : String)
    (md : PayloadObject) :
    (log_activity e st cid aty md).2.2.processed_events = st.processed_events := by
  simp only [log_activity]
  split
  · rfl
  · split
    · simp only [mark_note_processed]
      split <;> split <;> rfl
    · rfl

/-- Marking an event key never touches the note set. -/
lemma mark_event_notes (st : BotState) (k : String) :
    (mark_event_processed st k).processed_notes = st.processed_notes := by
  simp only [mark_event_processed]
  split <;> split <;> rfl

/-- `log_activity` preserves `noteOk` on the threaded environment. -/
lemma log_activity_noteOk {e : Env} (st : BotState) (cid aty : String)
    (md : PayloadObject) (h : e.noteOk = false) :
    (log_activity e st cid aty md).2.1.noteOk = false := by
  rw [noteOk_of_cfg (log_activity_env_cfg e st cid aty md)]
  exact h

/-- `handle_contact` preserves `noteOk` on the threaded environment. -/
lemma handle_contact_noteOk {e : Env} (ud : UserData) (h : e.noteOk = false) :
    (handle_contact e ud).2.noteOk = false := by
  rw [noteOk_of_cfg (handle_contact_cfg e ud)]
  exact h

/-- With the note endpoint failing, the meeting loop leaves the note set
unchanged: no note key is marked without a successful CRM write. -/
lemma meetingLoop_notes_of_fail (et : String) (md : PayloadObject)
    (ps : List HashedParticipant) (e : Env) (st : BotState) (done : List String)
    (h : e.noteOk = false) :
    (meetingLoop et md ps e st done).2.processed_notes = st.processed_notes := by
  induction ps generalizing e st done with
  | nil => rfl
  | cons hp rest ih =>
    simp only [meetingLoop]
    split
    · rename_i cid e1 heq
      have h1 := congrArg Prod.snd heq
      simp only at h1
      subst h1
      split
      · exact ih _ _ _ (handle_contact_noteOk _ h)
      · rw [ih _ _ _ (log_activity_noteOk _ _ _ _ (handle_contact_noteOk _ h)),
          log_activity_notes_of_fail _ _ _ _ (handle_contact_noteOk _ h)]
    · rename_i e1 heq
      have h1 := congrArg Prod.snd heq
      simp only at h1
      subst h1
      exact ih _ _ _ (handle_contact_noteOk _ h)

/-- The meeting loop never touches the event set. -/
lemma meetingLoop_events (et : String) (md : PayloadObject)
    (ps : List HashedParticipant) (e : Env) (st : BotState) (done : List String) :
    (meetingLoop et md ps e st done).2.processed_events = st.processed_events := by
  induction ps generalizing e st done with
  | nil => rfl
  | cons hp rest ih =>
    simp only [meetingLoop]
    split
    · rename_i cid e1 heq
      split
      · exact ih _ _ _
      · rw [ih _ _ _, log_activity_events]
    · exact ih _ _ _

/-- The meeting handler always reports success (webhook_handler.py line 688),
even when note writes inside it failed. -/
lemma process_meeting_event_fst (e : Env) (st : BotState) (ev : Event) :
    (process_meeting_event e st ev).1 = true := rfl

/-- For an event that routes to the meeting handler and is not a dedup hit,
`process_webhook` runs the meeting handler and — since it reports success —
marks the event key. -/
lemma process_webhook_meeting (e : Env) (st : BotState) (other : OtherHandler)
    (ev : Event) (hroute : routesToMeeting ev.event = true)
    (hseen : is_event_processed st (generate_event_id ev) = false) :
    process_webhook e st other ev =
      (true, (process_meeting_event e st ev).2.1,
       mark_event_processed (process_meeting_event e st ev).2.2
         (generate_event_id ev)) := by
  unfold routesToMeeting at hroute
  simp only [Bool.and_eq_true, Bool.not_eq_true'] at hroute
  obtain ⟨⟨⟨⟨⟨⟨h1, h2⟩, h3⟩, h4⟩, h5⟩, h6⟩, h7⟩ := hroute
  simp only [process_webhook, hseen, h1, h2, h3, h4, h5, h6, h7, Bool.or_self,
    Bool.false_eq_true, if_false, process_meeting_event_fst, if_true]

/-- Off a dedup hit, `process_webhook` dispatches to either the parametrized
non-meeting handler or the meeting handler, marking the event key exactly
when the chosen handler reports success. -/
lemma process_webhook_dispatch (e : Env) (st : BotState) (other : OtherHandler)
    (ev : Event) (hseen : is_event_processed st (generate_event_id ev) = false) :
    ∃ r, (r = other e st ev ∨ r = process_meeting_event e st ev) ∧
      process_webhook e st other ev =
        (if r.1 then (r.1, r.2.1, mark_event_processed r.2.2 (generate_event_id ev))
         else r) := by
  simp only [process_webhook, hseen, Bool.false_eq_true, if_false]
  split
  · exact ⟨_, Or.inl rfl, rfl⟩
  · split
    · exact ⟨_, Or.inl rfl, rfl⟩
    · split
      · exact ⟨_, Or.inl rfl, rfl⟩
      · split
        · exact ⟨_, Or.inl rfl, rfl⟩
        · exact ⟨_, Or.inr rfl, rfl⟩

/-- C3 counterexample: a meeting event processed while the CRM note endpoint
fails.  The note `POST` is issued and fails (`noteOk = false`), so no note
key is marked — but `process_meeting_event` still reports success, so the
event key *is* added to the processed-events set, contradicting the claim
that a failed CRM-side call leaves both marks unset. -/
theorem c3_counterexample :
    ({ noteOk := false } : Env).noteOk = false ∧
    (process_webhook { noteOk := false } { } failOther meetEvent).1 = true ∧
    is_event_processed (process_webhook { noteOk := false } { } failOther meetEvent).2.2
      (generate_event_id meetEvent) = true ∧
    (process_webhook { noteOk := false } { } failOther meetEvent).2.2.processed_notes
      = [] ∧
    ((process_webhook { noteOk := false } { } failOther meetEvent).2.1.calls.any (fun c =>
        match c with
        | ApiCall.notePost _ _ => true
        | _ => false)) = true := by
  decide

/-- C3 as amended: (1) a note key is added to the processed-notes set only
when the CRM note-creation call returns success — `log_activity` can grow
the note set only with `noteOk = true`; (2) end-to-end, a meeting event
processed while the note endpoint fails leaves the note set unchanged, so a
later retry of the note can still succeed; (3) an event key is added only
when the dispatched handler reports success (for handlers that do not touch
the event set themselves): a failed dispatch leaves the event set unchanged.
However — per the counterexample — the meeting handler reports success even
when its CRM note writes failed, so a CRM-side note failure does *not*
prevent the event mark. -/
theorem c3_amended_marks (e : Env) :
    (∀ (st : BotState) (cid aty : String) (md : PayloadObject) (k : String),
       (log_activity e st cid aty md).2.2.processed_notes.contains k = true →
       st.processed_notes.contains k = true ∨ e.noteOk = true) ∧
    (∀ (st : BotState) (other : OtherHandler) (ev : Event),
       routesToMeeting ev.event = true → e.noteOk = false →
       (process_webhook e st other ev).2.2.processed_notes = st.processed_notes) ∧
    (∀ (st : BotState) (other : OtherHandler) (ev : Event),
       (∀ (e' : Env) (st' : BotState) (ev' : Event),
          (other e' st' ev').2.2.processed_events = st'.processed_events) →
       (process_webhook e st other ev).1 = false →
       (process_webhook e st other ev).2.2.processed_events = st.processed_events) := by
  refine ⟨?_, ?_, ?_⟩
  · intro st cid aty md k hk
    by_cases hOk : e.noteOk = true
    · exact Or.inr hOk
    · rw [log_activity_notes_of_fail st cid aty md (by simpa using hOk)] at hk
      exact Or.inl hk
  · intro st other ev hroute hOk
    by_cases hseen : is_event_processed st (generate_event_id ev) = true
    · simp only [process_webhook, hseen, if_true]
    · rw [process_webhook_meeting e st other ev hroute (by simpa using hseen)]
      simp only [mark_event_notes, process_meeting_event]
      exact meetingLoop_notes_of_fail _ _ _ _ _ _ hOk
  · intro st other ev hother hfail
    by_cases hseen : is_event_processed st (generate_event_id ev) = true
    · simp only [process_webhook, hseen, if_true] at hfail
      exact absurd hfail (by simp)
    · obtain ⟨r, hr, heq⟩ :=
        process_webhook_dispatch e st other ev (by simpa using hseen)
      rw [heq] at hfail ⊢
      by_cases hfst : r.1 = true
      · rw [if_pos hfst] at hfail
        exact absurd hfail (by simp [hfst])
      · rw [if_neg hfst] at hfail ⊢
        rcases hr with hr | hr
        · rw [hr, hother]
        · exact absurd (hr ▸ process_meeting_event_fst e st ev) hfst

/-- A concrete SMS-category event, routed away from the meeting handler. -/
def smsEvent : Event := { event := "phone.sms_sent", event_ts := "5" }

set_option maxRecDepth 400000 in
/-- Witness for C3's amended theorem: part (1) at a successful concrete note
write, part (2) at a concrete meeting event with the note endpoint failing,
part (3) at a concrete SMS event whose (stand-in) handler fails. -/
theorem c3_witness :
    ((log_activity { } { } "1" "meeting.started" { }).2.2.processed_notes.contains
        (generate_note_id "1" (activityNote { } "meeting.started" { })) = true ∧
      (({ } : BotState).processed_notes.contains
        (generate_note_id "1" (activityNote { } "meeting.started" { })) = true ∨
        ({ } : Env).noteOk = true)) ∧
    (routesToMeeting meetEvent.event = true ∧
      (process_webhook { noteOk := false } { } failOther meetEvent).2.2.processed_notes
        = ({ } : BotState).processed_notes) ∧
    ((process_webhook { } { } failOther smsEvent).1 = false ∧
      (process_webhook { } { } failOther smsEvent).2.2.processed_events
        = ({ } : BotState).processed_events) :=
  ⟨⟨by decide, (c3_amended_marks { }).1 { } "1" "meeting.started" { } _ (by decide)⟩,
   ⟨by decide, (c3_amended_marks { noteOk := false }).2.1 { } failOther meetEvent
      (by decide) rfl⟩,
   ⟨by decide, (c3_amended_marks { }).2.2 { } failOther smsEvent
      (fun _ _ _ => rfl) (by decide)⟩⟩

/-! ## Claim C4: lemma infrastructure

The idempotence analysis needs (a) the relation between the traced search
wrappers and the pure searches, (b) the behaviour of `create_contact` when
every collision check misses, and (c) a pure mirror of `handle_contact`'s
search phase (`cascadeSearch`) whose value determines the resolver's result.
-/

/-- The traced email search returns the pure search result and changes only
the call trace. -/
lemma env_search_email_spec (e : Env) (q : String) :
    (env_search_email e q).1 = search_contact_by_email (endpointsOf e.contacts) q ∧
    (env_search_email e q).2.contacts = e.contacts ∧
    (env_search_email e q).2.nextId = e.nextId := by
  unfold env_search_email search_contact_by_email env_search_general
  refine ⟨?_, ?_, ?_⟩ <;> split <;> rfl

/-- The traced phone search returns the pure search result and changes only
the call trace. -/
lemma env_search_phone_spec (e : Env) (q : String) :
    (env_search_phone e q).1 = search_contact_by_phone (endpointsOf e.contacts) q ∧
    (env_search_phone e q).2.contacts = e.contacts ∧
    (env_search_phone e q).2.nextId = e.nextId := by
  unfold env_search_phone search_contact_by_phone env_search_general
  refine ⟨?_, ?_, ?_⟩ <;> split <;> rfl

/-- The traced name search returns the pure search result and changes only
the call trace. -/
lemma env_search_name_spec (e : Env) (q : String) :
    (env_search_name e q).1 = search_contact_by_name (endpointsOf e.contacts) q ∧
    (env_search_name e q).2.contacts = e.contacts ∧
    (env_search_name e q).2.nextId = e.nextId := by
  unfold env_search_name search_contact_by_name env_search_general
  refine ⟨?_, ?_, ?_⟩ <;> split <;> rfl

/-- The traced general search returns the pure search result and changes
only the call trace. -/
lemma env_search_general_spec (e : Env) (q : String) :
    (env_search_general e q).1 = search_contact_general (endpointsOf e.contacts) q ∧
    (env_search_general e q).2.contacts = e.contacts ∧
    (env_search_general e q).2.nextId = e.nextId :=
  ⟨rfl, rfl, rfl⟩

/-- The `POST` stage of `create_contact`, fully evaluated. -/
lemma create_contact_post_run (e : Env) (cd : ContactData) :
    create_contact_post e cd =
      (some (contactOfPayload (toString e.nextId) (payloadOf cd)),
       { e with contacts := e.contacts ++ [contactOfPayload (toString e.nextId) (payloadOf cd)],
                nextId := e.nextId + 1,
                calls := e.calls ++ [ApiCall.createPost (payloadOf cd)] }) := rfl

/-- When the name collision check misses, the name stage posts the payload
unchanged. -/
lemma create_name_stage_miss (e : Env) (cd : ContactData) (o : String)
    (hN : cd.first_name ≠ "" →
      search_contact_by_name (endpointsOf e.contacts) cd.first_name = none) :
    (create_contact_name_stage e cd o).1 =
      some (contactOfPayload (toString e.nextId) (payloadOf cd)) ∧
    (create_contact_name_stage e cd o).2.contacts =
      e.contacts ++ [contactOfPayload (toString e.nextId) (payloadOf cd)] := by
  unfold create_contact_name_stage
  by_cases hf : (cd.first_name != "") = true
  · rw [if_pos hf]
    rcases hsc : env_search_name e cd.first_name with ⟨r, e1⟩
    have hr : r = none := by
      have h1 := (env_search_name_spec e cd.first_name).1
      rw [hsc] at h1
      simp only at h1
      rw [h1]
      exact hN (by simpa using hf)
    subst hr
    have hc1 : e1.contacts = e.contacts := by
      have := (env_search_name_spec e cd.first_name).2.1
      rw [hsc] at this
      exact this
    have hn1 : e1.nextId = e.nextId := by
      have := (env_search_name_spec e cd.first_name).2.2
      rw [hsc] at this
      exact this
    refine ⟨?_, ?_⟩ <;> simp [create_contact_post, hc1, hn1]
  · rw [if_neg hf]
    exact ⟨rfl, rfl⟩

/-- When phone and name collision checks miss, the phone stage posts the
payload unchanged. -/
lemma create_phone_stage_miss (e : Env) (cd : ContactData) (o : String)
    (hP : cd.phone ≠ "" →
      search_contact_by_phone (endpointsOf e.contacts) cd.phone = none)
    (hN : cd.first_name ≠ "" →
      search_contact_by_name (endpointsOf e.contacts) cd.first_name = none) :
    (create_contact_phone_stage e cd o).1 =
      some (contactOfPayload (toString e.nextId) (payloadOf cd)) ∧
    (create_contact_phone_stage e cd o).2.contacts =
      e.contacts ++ [contactOfPayload (toString e.nextId) (payloadOf cd)] := by
  unfold create_contact_phone_stage
  by_cases hp : (cd.phone != "") = true
  · rw [if_pos hp]
    rcases hsc : env_search_phone e cd.phone with ⟨r, e1⟩
    have hr : r = none := by
      have h1 := (env_search_phone_spec e cd.phone).1
      rw [hsc] at h1
      simp only at h1
      rw [h1]
      exact hP (by simpa using hp)
    subst hr
    have hc1 : e1.contacts = e.contacts := by
      have := (env_search_phone_spec e cd.phone).2.1
      rw [hsc] at this
      exact this
    have hn1 : e1.nextId = e.nextId := by
      have := (env_search_phone_spec e cd.phone).2.2
      rw [hsc] at this
      exact this
    have hrest := create_name_stage_miss e1 cd o (fun h => by rw [hc1]; exact hN h)
    refine ⟨?_, ?_⟩
    · rw [hrest.1, hn1]
    · rw [hrest.2, hc1, hn1]
  · rw [if_neg hp]
    exact create_name_stage_miss e cd o hN

/-- When every collision check misses (or is skipped), `create_contact`
posts the payload unchanged: fresh id, contact appended. -/
lemma create_contact_miss (e : Env) (cd : ContactData)
    (hE : cd.email ≠ "" → substr "@placeholder.com" cd.email = false →
      search_contact_by_email (endpointsOf e.contacts) cd.email = none)
    (hP : cd.phone ≠ "" →
      search_contact_by_phone (endpointsOf e.contacts) cd.phone = none)
    (hN : cd.first_name ≠ "" →
      search_contact_by_name (endpointsOf e.contacts) cd.first_name = none) :
    (create_contact e cd).1 =
      some (contactOfPayload (toString e.nextId) (payloadOf cd)) ∧
    (create_contact e cd).2.contacts =
      e.contacts ++ [contactOfPayload (toString e.nextId) (payloadOf cd)] := by
  simp only [create_contact]
  by_cases he : (cd.email != "" && !substr "@placeholder.com" cd.email) = true
  · rw [if_pos he]
    simp only [Bool.and_eq_true, bne_iff_ne, Bool.not_eq_true'] at he
    rcases hsc : env_search_email e cd.email with ⟨r, e1⟩
    have hr : r = none := by
      have h1 := (env_search_email_spec e cd.email).1
      rw [hsc] at h1
      simp only at h1
      rw [h1]
      exact hE he.1 he.2
    subst hr
    have hc1 : e1.contacts = e.contacts := by
      have := (env_search_email_spec e cd.email).2.1
      rw [hsc] at this
      exact this
    have hn1 : e1.nextId = e.nextId := by
      have := (env_search_email_spec e cd.email).2.2
      rw [hsc] at this
      exact this
    have hrest := create_phone_stage_miss e1 cd cd.email
      (fun h => by rw [hc1]; exact hP h) (fun h => by rw [hc1]; exact hN h)
    refine ⟨?_, ?_⟩
    · rw [hrest.1, hn1]
    · rw [hrest.2, hc1, hn1]
  · rw [if_neg he]
    exact create_phone_stage_miss e cd cd.email hP hN

/-- Pure mirror of `handle_contact`'s final general search step. -/
def cascadeGeneral (l : List Contact) (ud : UserData) (name : String) : Option Contact :=
  if ud.email != "" || ud.phone != "" || name != "" then
    search_contact_general (endpointsOf l)
      (if ud.email != "" then ud.email else if ud.phone != "" then ud.phone else name)
  else none

/-- Pure mirror of `handle_contact`'s name search step. -/
def cascadeName (l : List Contact) (ud : UserData) (name : String) : Option Contact :=
  match (if name != "" then search_contact_by_name (endpointsOf l) name else none) with
  | some c => some c
  | none => cascadeGeneral l ud name

/-- Pure mirror of `handle_contact`'s phone search step. -/
def cascadePhone (l : List Contact) (ud : UserData) (name : String) : Option Contact :=
  match (if ud.phone != "" then search_contact_by_phone (endpointsOf l) ud.phone else none) with
  | some c => some c
  | none => cascadeName l ud name

/-- Pure mirror of `handle_contact`'s entire search phase over a contact
store: its value determines the resolver's result. -/
def cascadeSearch (l : List Contact) (ud : UserData) : Option Contact :=
  match (if ud.email != "" then search_contact_by_email (endpointsOf l) ud.email else none) with
  | some c => some c
  | none => cascadePhone l ud (hcName ud)

/-- The contact created by `handle_contact`'s create path. -/
def newContactOf (nid : Nat) (ud : UserData) (name : String) : Contact :=
  contactOfPayload (toString nid) (payloadOf (hcContactData ud name))

/-- `substr` finds a suffix. -/
lemma strInfix_append (n : List Char) : ∀ pre : List Char, strInfix n (pre ++ n) = true := by
  have hrefl : n.isPrefixOf n = true := by
    rw [List.isPrefixOf_iff_prefix]
  intro pre
  induction pre with
  | nil =>
    cases n with
    | nil => rfl
    | cons c t =>
      show ((c :: t).isPrefixOf (c :: t) || _) = true
      rw [hrefl]
      rfl
  | cons c rest ih =>
    show (n.isPrefixOf (c :: (rest ++ n)) || strInfix n (rest ++ n)) = true
    rw [ih, Bool.or_true]

/-- `substr` finds a string suffix. -/
lemma substr_suffix (p s : String) : substr s (p ++ s) = true := by
  unfold substr
  rw [String.data_append]
  exact strInfix_append s.data p.data

/-- When the descriptor has a non-empty email, `contact_data` carries it. -/
lemma hcContactData_email_of_ne (ud : UserData) (name : String) (h : ud.email ≠ "") :
    (hcContactData ud name).email = ud.email := by
  simp [hcContactData, bne_iff_ne, h]

/-- When the descriptor has no email, `contact_data` carries a placeholder
address (always containing `@placeholder.com`). -/
lemma hcContactData_email_placeholder (ud : UserData) (name : String) (h : ud.email = "") :
    substr "@placeholder.com" (hcContactData ud name).email = true := by
  simp only [hcContactData, h]
  split
  · simp_all
  · split
    · exact substr_suffix _ _
    · split
      · exact substr_suffix _ _
      · split
        · exact substr_suffix _ _
        · decide

/-- A freshly created contact passes the activity predicate. -/
lemma newContact_active (nid : Nat) (ud : UserData) (name : String) :
    is_contact_active (newContactOf nid ud name) = true := rfl

/-- If the pure email search misses, so did the `find?` over the email
endpoint's candidates. -/
lemma email_endpoint_miss {ep : Endpoints} {q : String}
    (h : search_contact_by_email ep q = none) :
    (ep.emailSearch q).find? is_contact_active = none := by
  unfold search_contact_by_email at h
  split at h
  · simp at h
  · assumption

/-- If the pure phone search misses, so did the endpoint `find?`. -/
lemma phone_endpoint_miss {ep : Endpoints} {q : String}
    (h : search_contact_by_phone ep q = none) :
    (ep.phoneSearch q).find? is_contact_active = none := by
  unfold search_contact_by_phone at h
  split at h
  · simp at h
  · assumption

/-- If the pure name search misses, so did the endpoint `find?`. -/
lemma name_endpoint_miss {ep : Endpoints} {q : String}
    (h : search_contact_by_name ep q = none) :
    (ep.nameSearch q).find? is_contact_active = none := by
  unfold search_contact_by_name at h
  split at h
  · simp at h
  · assumption

/-- After appending an active contact whose email matches the query to a
store whose email candidates had no active match, the email search finds
exactly the appended contact. -/
lemma second_email_hit (l : List Contact) (c : Contact) (q : String)
    (hq : c.email = q)
    (hm : ((endpointsOf l).emailSearch q).find? is_contact_active = none)
    (hact : is_contact_active c = true) :
    search_contact_by_email (endpointsOf (l ++ [c])) q = some c := by
  have hfilter : (endpointsOf (l ++ [c])).emailSearch q
      = (endpointsOf l).emailSearch q ++ [c] := by
    show (l ++ [c]).filter _ = l.filter _ ++ [c]
    rw [List.filter_append]
    simp [hq]
  unfold search_contact_by_email
  rw [hfilter, List.find?_append, hm]
  simp [List.find?, hact]

/-- Phone-search analogue of `second_email_hit`. -/
lemma second_phone_hit (l : List Contact) (c : Contact) (q : String)
    (hq : c.phone = q)
    (hm : ((endpointsOf l).phoneSearch q).find? is_contact_active = none)
    (hact : is_contact_active c = true) :
    search_contact_by_phone (endpointsOf (l ++ [c])) q = some c := by
  have hfilter : (endpointsOf (l ++ [c])).phoneSearch q
      = (endpointsOf l).phoneSearch q ++ [c] := by
    show (l ++ [c]).filter _ = l.filter _ ++ [c]
    rw [List.filter_append]
    simp [hq]
  unfold search_contact_by_phone
  rw [hfilter, List.find?_append, hm]
  simp [List.find?, hact]

/-- Name-search analogue of `second_email_hit`. -/
lemma second_name_hit (l : List Contact) (c : Contact) (q : String)
    (hq : c.firstName = q)
    (hm : ((endpointsOf l).nameSearch q).find? is_contact_active = none)
    (hact : is_contact_active c = true) :
    search_contact_by_name (endpointsOf (l ++ [c])) q = some c := by
  have hfilter : (endpointsOf (l ++ [c])).nameSearch q
      = (endpointsOf l).nameSearch q ++ [c] := by
    show (l ++ [c]).filter _ = l.filter _ ++ [c]
    rw [List.filter_append]
    simp [hq]
  unfold search_contact_by_name
  rw [hfilter, List.find?_append, hm]
  simp [List.find?, hact]

/-- A missed cascade means each applicable keyed search missed. -/
lemma cascade_none_parts (l : List Contact) (ud : UserData)
    (h : cascadeSearch l ud = none) :
    (ud.email ≠ "" → search_contact_by_email (endpointsOf l) ud.email = none) ∧
    (ud.phone ≠ "" → search_contact_by_phone (endpointsOf l) ud.phone = none) ∧
    (hcName ud ≠ "" → search_contact_by_name (endpointsOf l) (hcName ud) = none) := by
  unfold cascadeSearch at h
  split at h
  · simp at h
  · rename_i heq1
    unfold cascadePhone at h
    split at h
    · simp at h
    · rename_i heq2
      unfold cascadeName at h
      split at h
      · simp at h
      · rename_i heq3
        refine ⟨fun hne => ?_, fun hne => ?_, fun hne => ?_⟩
        · rw [if_pos (by simpa using hne)] at heq1
          exact heq1
        · rw [if_pos (by simpa using hne)] at heq2
          exact heq2
        · rw [if_pos (by simpa using hne)] at heq3
          exact heq3

/-- After the create path appended the fresh contact, rerunning the cascade
over the grown store finds exactly that contact (the second call's search
hit). -/
lemma cascade_second_hit (l : List Contact) (ud : UserData) (nid : Nat)
    (hid : ud.email ≠ "" ∨ ud.phone ≠ "" ∨ hcName ud ≠ "")
    (hmiss : cascadeSearch l ud = none) :
    cascadeSearch (l ++ [newContactOf nid ud (hcName ud)]) ud
      = some (newContactOf nid ud (hcName ud)) := by
  obtain ⟨hmE, hmP, hmN⟩ := cascade_none_parts l ud hmiss
  unfold cascadeSearch
  by_cases he : (ud.email != "") = true
  · have hue : ud.email ≠ "" := by simpa using he
    rw [if_pos he, second_email_hit l _ ud.email
      (by rw [show (newContactOf nid ud (hcName ud)).email = (hcContactData ud (hcName ud)).email from rfl,
          hcContactData_email_of_ne ud (hcName ud) hue])
      (email_endpoint_miss (hmE hue)) (newContact_active nid ud (hcName ud))]
  · have hue : ud.email = "" := by simpa using he
    rw [if_neg he]
    unfold cascadePhone
    by_cases hp : (ud.phone != "") = true
    · have hup : ud.phone ≠ "" := by simpa using hp
      rw [if_pos hp, second_phone_hit l _ ud.phone rfl
        (phone_endpoint_miss (hmP hup)) (newContact_active nid ud (hcName ud))]
    · have hup : ud.phone = "" := by simpa using hp
      rw [if_neg hp]
      have hn : hcName ud ≠ "" := by
        rcases hid with h | h | h
        · exact absurd hue h
        · exact absurd hup h
        · exact h
      unfold cascadeName
      rw [if_pos (by simpa using hn), second_name_hit l _ (hcName ud) rfl
        (name_endpoint_miss (hmN hn)) (newContact_active nid ud (hcName ud))]

/-- Outcome of the final-check stage: the general search hit (id returned,
store untouched) or the create path ran (fresh id, contact appended). -/
lemma hcGeneralStage_run (e : Env) (ud : UserData) (name : String)
    (hmE : ud.email ≠ "" → search_contact_by_email (endpointsOf e.contacts) ud.email = none)
    (hmP : ud.phone ≠ "" → search_contact_by_phone (endpointsOf e.contacts) ud.phone = none)
    (hmN : name ≠ "" → search_contact_by_name (endpointsOf e.contacts) name = none) :
    (∃ c, cascadeGeneral e.contacts ud name = some c ∧
      (hcGeneralStage e ud name).1 = some c.id ∧
      (hcGeneralStage e ud name).2.contacts = e.contacts) ∨
    (cascadeGeneral e.contacts ud name = none ∧
      (hcGeneralStage e ud name).1 = some (toString e.nextId) ∧
      (hcGeneralStage e ud name).2.contacts
        = e.contacts ++ [newContactOf e.nextId ud name]) := by
  have hcreateAt : ∀ (e1 : Env), e1.contacts = e.contacts → e1.nextId = e.nextId →
      (match create_contact e1 (hcContactData ud name) with
       | (some c, e2) => (some c.id, e2)
       | (none, e2) => ((none : Option String), e2)).1 = some (toString e.nextId) ∧
      (match create_contact e1 (hcContactData ud name) with
       | (some c, e2) => (some c.id, e2)
       | (none, e2) => ((none : Option String), e2)).2.contacts
        = e.contacts ++ [newContactOf e.nextId ud name] := by
    intro e1 hc1 hn1
    have hcreate := create_contact_miss e1 (hcContactData ud name)
      (fun hne hsub => by
        by_cases hue : ud.email = ""
        · rw [hcContactData_email_placeholder ud name hue] at hsub
          exact absurd hsub (by decide)
        · rw [hcContactData_email_of_ne ud name hue, hc1]
          exact hmE hue)
      (fun h => by rw [hc1]; exact hmP h)
      (fun h => by rw [hc1]; exact hmN h)
    rcases hcc : create_contact e1 (hcContactData ud name) with ⟨rc, e2⟩
    have hf := hcreate.1
    rw [hcc] at hf
    simp only at hf
    subst hf
    have hcs := hcreate.2
    rw [hcc] at hcs
    simp only at hcs
    constructor
    · show some (contactOfPayload (toString e1.nextId) (payloadOf (hcContactData ud name))).id
        = some (toString e.nextId)
      rw [hn1]
      rfl
    · show e2.contacts = _
      rw [hcs, hc1, hn1]
      rfl
  unfold hcGeneralStage cascadeGeneral
  by_cases hg : (ud.email != "" || ud.phone != "" || name != "") = true
  · rw [if_pos hg, if_pos hg]
    rcases hsc : env_search_general e
      (if ud.email != "" then ud.email else if ud.phone != "" then ud.phone else name)
      with ⟨r, e1⟩
    have h1 := (env_search_general_spec e
      (if ud.email != "" then ud.email else if ud.phone != "" then ud.phone else name)).1
    rw [hsc] at h1
    simp only at h1
    have hc1 : e1.contacts = e.contacts := by
      have := (env_search_general_spec e
        (if ud.email != "" then ud.email else if ud.phone != "" then ud.phone else name)).2.1
      rw [hsc] at this
      exact this
    have hn1 : e1.nextId = e.nextId := by
      have := (env_search_general_spec e
        (if ud.email != "" then ud.email else if ud.phone != "" then ud.phone else name)).2.2
      rw [hsc] at this
      exact this
    cases r with
    | some c => exact Or.inl ⟨c, h1.symm, rfl, hc1⟩
    | none => exact Or.inr ⟨h1.symm, (hcreateAt e1 hc1 hn1).1, (hcreateAt e1 hc1 hn1).2⟩
  · rw [if_neg hg, if_neg hg]
    exact Or.inr ⟨rfl, (hcreateAt e rfl rfl).1, (hcreateAt e rfl rfl).2⟩

/-- Outcome of the name-search stage, propagating the earlier misses. -/
lemma hcNameStage_run (e : Env) (ud : UserData) (name : String)
    (hmE : ud.email ≠ "" → search_contact_by_email (endpointsOf e.contacts) ud.email = none)
    (hmP : ud.phone ≠ "" → search_contact_by_phone (endpointsOf e.contacts) ud.phone = none) :
    (∃ c, cascadeName e.contacts ud name = some c ∧
      (hcNameStage e ud name).1 = some c.id ∧
      (hcNameStage e ud name).2.contacts = e.contacts) ∨
    (cascadeName e.contacts ud name = none ∧
      (hcNameStage e ud name).1 = some (toString e.nextId) ∧
      (hcNameStage e ud name).2.contacts
        = e.contacts ++ [newContactOf e.nextId ud name]) := by
  unfold hcNameStage cascadeName
  by_cases hf : (name != "") = true
  · rw [if_pos hf, if_pos hf]
    rcases hsc : env_search_name e name with ⟨r, e1⟩
    have h1 := (env_search_name_spec e name).1
    rw [hsc] at h1
    simp only at h1
    have hc1 : e1.contacts = e.contacts := by
      have := (env_search_name_spec e name).2.1
      rw [hsc] at this
      exact this
    have hn1 : e1.nextId = e.nextId := by
      have := (env_search_name_spec e name).2.2
      rw [hsc] at this
      exact this
    cases r with
    | some c =>
      refine Or.inl ⟨c, ?_, rfl, hc1⟩
      rw [← h1]
    | none =>
      have hrest := hcGeneralStage_run e1 ud name
        (fun h => by rw [hc1]; exact hmE h)
        (fun h => by rw [hc1]; exact hmP h)
        (fun _ => by rw [hc1]; exact h1.symm)
      rw [hc1, hn1] at hrest
      rw [← h1]
      exact hrest
  · rw [if_neg hf, if_neg hf]
    exact hcGeneralStage_run e ud name hmE hmP
      (fun hne => absurd (show name = "" by simpa using hf) hne)

/-- Outcome of the phone-search stage, propagating the email miss. -/
lemma hcPhoneStage_run (e : Env) (ud : UserData) (name : String)
    (hmE : ud.email ≠ "" → search_contact_by_email (endpointsOf e.contacts) ud.email = none) :
    (∃ c, cascadePhone e.contacts ud name = some c ∧
      (hcPhoneStage e ud name).1 = some c.id ∧
      (hcPhoneStage e ud name).2.contacts = e.contacts) ∨
    (cascadePhone e.contacts ud name = none ∧
      (hcPhoneStage e ud name).1 = some (toString e.nextId) ∧
      (hcPhoneStage e ud name).2.contacts
        = e.contacts ++ [newContactOf e.nextId ud name]) := by
  unfold hcPhoneStage cascadePhone
  by_cases hp : (ud.phone != "") = true
  · rw [if_pos hp, if_pos hp]
    rcases hsc : env_search_phone e ud.phone with ⟨r, e1⟩
    have h1 := (env_search_phone_spec e ud.phone).1
    rw [hsc] at h1
    simp only at h1
    have hc1 : e1.contacts = e.contacts := by
      have := (env_search_phone_spec e ud.phone).2.1
      rw [hsc] at this
      exact this
    have hn1 : e1.nextId = e.nextId := by
      have := (env_search_phone_spec e ud.phone).2.2
      rw [hsc] at this
      exact this
    cases r with
    | some c =>
      refine Or.inl ⟨c, ?_, rfl, hc1⟩
      rw [← h1]
    | none =>
      have hrest := hcNameStage_run e1 ud name
        (fun h => by rw [hc1]; exact hmE h)
        (fun _ => by rw [hc1]; exact h1.symm)
      rw [hc1, hn1] at hrest
      rw [← h1]
      exact hrest
  · rw [if_neg hp, if_neg hp]
    exact hcNameStage_run e ud name hmE
      (fun hne => absurd (show ud.phone = "" by simpa using hp) hne)

/-- Master characterization of `handle_contact` off the empty-descriptor
guard: the cascade's pure value determines the result — a search hit returns
that contact's id with the store untouched; a full miss creates and returns
the fresh contact. -/
lemma handle_contact_run (e : Env) (ud : UserData)
    (hguard : (ud.email == "" && ud.user_id == "" && ud.phone == ""
               && hcName ud == "") = false) :
    (∃ c, cascadeSearch e.contacts ud = some c ∧
      (handle_contact e ud).1 = some c.id ∧
      (handle_contact e ud).2.contacts = e.contacts) ∨
    (cascadeSearch e.contacts ud = none ∧
      (handle_contact e ud).1 = some (toString e.nextId) ∧
      (handle_contact e ud).2.contacts
        = e.contacts ++ [newContactOf e.nextId ud (hcName ud)]) := by
  simp only [handle_contact, hguard, Bool.false_eq_true, if_false]
  unfold cascadeSearch
  by_cases he : (ud.email != "") = true
  · rw [if_pos he, if_pos he]
    rcases hsc : env_search_email e ud.email with ⟨r, e1⟩
    have h1 := (env_search_email_spec e ud.email).1
    rw [hsc] at h1
    simp only at h1
    have hc1 : e1.contacts = e.contacts := by
      have := (env_search_email_spec e ud.email).2.1
      rw [hsc] at this
      exact this
    have hn1 : e1.nextId = e.nextId := by
      have := (env_search_email_spec e ud.email).2.2
      rw [hsc] at this
      exact this
    cases r with
    | some c =>
      refine Or.inl ⟨c, ?_, rfl, hc1⟩
      rw [← h1]
    | none =>
      have hrest := hcPhoneStage_run e1 ud (hcName ud)
        (fun h => by rw [hc1]; exact h1.symm)
      rw [hc1, hn1] at hrest
      rw [← h1]
      exact hrest
  · rw [if_neg he, if_neg he]
    exact hcPhoneStage_run e ud (hcName ud)
      (fun hne => absurd (show ud.email = "" by simpa using he) hne)

/-- A descriptor with any non-empty name source coalesces to a non-empty
display name (possibly the generic placeholder). -/
lemma hcName_ne (ud : UserData)
    (h : ud.first_name ≠ "" ∨ ud.user_name ≠ "" ∨ ud.name ≠ "") :
    hcName ud ≠ "" := by
  have hguard : ∀ x : String, x ≠ "" →
      (if is_phone_number x then "Meeting Participant" else x) ≠ "" := by
    intro x hx
    split
    · simp
    · exact hx
  simp only [hcName]
  split
  · rename_i h1
    exact hguard _ (by simpa using h1)
  · split
    · rename_i h2
      exact hguard _ (by simpa using h2)
    · rename_i h1 h2
      rcases h with h | h | h
      · exact absurd (show ud.first_name = "" by simpa using h1) h
      · exact absurd (show ud.user_name = "" by simpa using h2) h
      · exact hguard _ h

/-- C4 counterexample: a descriptor carrying only a `user_id`.  Both calls
skip every search (all search keys are empty), so each call creates a brand
new contact: the first returns id `"1"`, the repeat call against the
resulting CRM state returns id `"2"` — not the same contact id, with no
intervening CRM-side deletion and an unchanged descriptor. -/
theorem c4_counterexample :
    (handle_contact { } { user_id := "u1" }).1 = some "1" ∧
    (handle_contact (handle_contact { } { user_id := "u1" }).2 { user_id := "u1" }).1
      = some "2" ∧
    (handle_contact (handle_contact { } { user_id := "u1" }).2 { user_id := "u1" }).1
      ≠ (handle_contact { } { user_id := "u1" }).1 := by
  refine ⟨rfl, rfl, ?_⟩
  decide

/-- C4 as amended: for every descriptor with at least one searchable
identifier — a non-empty email, phone, or name source (`first_name`,
`user_name` or `name`) — calling `handle_contact` twice with the same
unchanged descriptor and no intervening CRM-side change returns the same
contact id both times: the second call finds by search the contact the
first call matched or created, and does not create a second contact.
(Per the counterexample, the claim fails for descriptors identified only by
`user_id`, which no search covers.) -/
theorem c4_amended_idempotent (e : Env) (ud : UserData)
    (hid : ud.email ≠ "" ∨ ud.phone ≠ "" ∨ ud.first_name ≠ "" ∨
           ud.user_name ≠ "" ∨ ud.name ≠ "") :
    ∃ cid, (handle_contact e ud).1 = some cid ∧
      (handle_contact (handle_contact e ud).2 ud).1 = some cid := by
  have hid' : ud.email ≠ "" ∨ ud.phone ≠ "" ∨ hcName ud ≠ "" := by
    rcases hid with h | h | h | h | h
    · exact Or.inl h
    · exact Or.inr (Or.inl h)
    · exact Or.inr (Or.inr (hcName_ne ud (Or.inl h)))
    · exact Or.inr (Or.inr (hcName_ne ud (Or.inr (Or.inl h))))
    · exact Or.inr (Or.inr (hcName_ne ud (Or.inr (Or.inr h))))
  have hguard : (ud.email == "" && ud.user_id == "" && ud.phone == ""
      && hcName ud == "") = false := by
    rcases hid' with h | h | h <;>
      simp [beq_eq_false_iff_ne.mpr h]
  rcases handle_contact_run e ud hguard with ⟨c, hcas, hfst, hcs⟩ | ⟨hcas, hfst, hcs⟩
  · refine ⟨c.id, hfst, ?_⟩
    rcases handle_contact_run (handle_contact e ud).2 ud hguard with
      ⟨c', hcas', hfst', _⟩ | ⟨hcas', _, _⟩
    · rw [hcs, hcas] at hcas'
      rw [hfst']
      rw [Option.some.inj hcas']
    · rw [hcs, hcas] at hcas'
      exact absurd hcas' (by simp)
  · refine ⟨toString e.nextId, hfst, ?_⟩
    have hhit := cascade_second_hit e.contacts ud e.nextId hid' hcas
    rcases handle_contact_run (handle_contact e ud).2 ud hguard with
      ⟨c', hcas', hfst', _⟩ | ⟨hcas', _, _⟩
    · rw [hcs, hhit] at hcas'
      have hc' : c' = newContactOf e.nextId ud (hcName ud) :=
        (Option.some.inj hcas').symm
      subst hc'
      exact hfst'
    · rw [hcs, hhit] at hcas'
      exact absurd hcas' (by simp)

/-- Witness for C4's amended idempotence at a concrete email-only
descriptor against an empty CRM: the first call creates, the second call
finds the created contact. -/
theorem c4_witness :
    (({ email := "w@y.com" } : UserData).email ≠ "" ∨
      ({ email := "w@y.com" } : UserData).phone ≠ "" ∨
      ({ email := "w@y.com" } : UserData).first_name ≠ "" ∨
      ({ email := "w@y.com" } : UserData).user_name ≠ "" ∨
      ({ email := "w@y.com" } : UserData).name ≠ "") ∧
    (∃ cid, (handle_contact { } { email := "w@y.com" }).1 = some cid ∧
      (handle_contact (handle_contact { } { email := "w@y.com" }).2
        { email := "w@y.com" }).1 = some cid) :=
  ⟨Or.inl (by decide),
   c4_amended_idempotent { } { email := "w@y.com" } (Or.inl (by decide))⟩

end ZoomGHL
